import Mathlib

/-!
# f-docker: control groups and the container lifecycle

A shallow embedding of `cgroups/accessor.go` and `cmds/impls/run/run.go`.

* Go strings are byte sequences.  A Go string is represented by the Lean
  string that has one character per byte, so `len`, `s[:n]` and `+` are
  `String.length`, `String.take` and `++`.
* Go `int` is the 64-bit two's-complement integer: arithmetic is done in `Int`
  and wrapped with `wrapInt64`.
* A finite `float64` is the rational number it denotes; `float64Round` is
  IEEE-754 round-to-nearest-even on binary64 and is applied after every
  floating-point operation.  Negative zero is identified with zero.
* Everything a function does to the outside world is an `Op`.  A program
  receives the operations performed so far and returns them extended with its
  own, in the order performed.  The outside world is an `Env`: it answers
  every operation, given the operations before it.
-/

namespace FDocker

/-! ## Go values -/

/-- Wrap an integer into the range of a 64-bit signed `int`. -/
def wrapInt64 (n : Int) : Int := (n + 2 ^ 63) % 2 ^ 64 - 2 ^ 63

/-- Go `a * b` on `int`. -/
def intMul (a b : Int) : Int := wrapInt64 (a * b)

/-- Go `a + b` on `int`. -/
def intAdd (a b : Int) : Int := wrapInt64 (a + b)

/-- The function `strconv.Itoa`: the decimal text of an `int`. -/
def Itoa (n : Int) : String :=
  if n < 0 then "-" ++ Nat.repr n.natAbs else Nat.repr n.toNat

/-- A `byte`. -/
abbrev Byte := Fin 256

/-- A `float64`: a finite value, an infinity, or not-a-number. -/
inductive Float64 where
  | finite (q : ℚ)
  | posInf
  | negInf
  | NaN
  deriving DecidableEq

/-- Round a rational to the nearest integer, ties to the even one. -/
def roundHalfEven (q : ℚ) : ℤ :=
  if Int.fract q < 1 / 2 then ⌊q⌋
  else if 1 / 2 < Int.fract q then ⌊q⌋ + 1
  else if ⌊q⌋ % 2 = 0 then ⌊q⌋ else ⌊q⌋ + 1

/-- IEEE-754 binary64 rounding of an exact result, round-to-nearest-even:
53 significant bits, least exponent `-1022` (below it the spacing stays
`2 ^ (-1074)`), overflow to an infinity from `2 ^ 1024` on. -/
def float64Round (q : ℚ) : Float64 :=
  let e : ℤ := max (Int.log 2 |q|) (-1022)
  let ulp : ℚ := (2 : ℚ) ^ (e - 52)
  let r : ℚ := (roundHalfEven (q / ulp) : ℚ) * ulp
  if (2 : ℚ) ^ (1024 : ℕ) ≤ r then Float64.posInf
  else if r ≤ -((2 : ℚ) ^ (1024 : ℕ)) then Float64.negInf
  else Float64.finite r

/-- Go `x > y` on `float64`; every comparison with NaN is false. -/
def Float64.gt : Float64 → Float64 → Bool
  | .NaN, _ => false
  | _, .NaN => false
  | .finite a, .finite b => decide (b < a)
  | .posInf, .posInf => false
  | .posInf, _ => true
  | .finite _, .negInf => true
  | _, _ => false

/-- Go `x <= y` on `float64`; every comparison with NaN is false. -/
def Float64.le : Float64 → Float64 → Bool
  | .NaN, _ => false
  | _, .NaN => false
  | .finite a, .finite b => decide (a ≤ b)
  | .negInf, _ => true
  | _, .posInf => true
  | _, _ => false

/-- Go `x * y` on `float64`. -/
def Float64.mul : Float64 → Float64 → Float64
  | .NaN, _ => .NaN
  | _, .NaN => .NaN
  | .finite a, .finite b => float64Round (a * b)
  | .finite a, .posInf => if a = 0 then .NaN else if 0 < a then .posInf else .negInf
  | .finite a, .negInf => if a = 0 then .NaN else if 0 < a then .negInf else .posInf
  | .posInf, .finite b => if b = 0 then .NaN else if 0 < b then .posInf else .negInf
  | .negInf, .finite b => if b = 0 then .NaN else if 0 < b then .negInf else .posInf
  | .posInf, .posInf => .posInf
  | .negInf, .negInf => .posInf
  | .posInf, .negInf => .negInf
  | .negInf, .posInf => .negInf

/-- Go `float64(n)` for an `int` n. -/
def Float64.ofInt (n : Int) : Float64 := float64Round (n : ℚ)

/-- Truncation of a rational toward zero. -/
def truncRat (q : ℚ) : ℤ := if 0 ≤ q then ⌊q⌋ else ⌈q⌉

/-- Go `int(f)` for a `float64` f: the fraction is discarded.  When the value
does not fit an `int` (or is not a number) Go leaves the result to the
platform; it is the parameter `outOfRange`. -/
def Float64.toInt (outOfRange : Int) : Float64 → Int
  | .finite q =>
      if -(2 : ℤ) ^ 63 ≤ truncRat q ∧ truncRat q < (2 : ℤ) ^ 63 then truncRat q
      else outOfRange
  | _ => outOfRange

/-- The function `strconv.FormatFloat(f, 'f', 1, 64)`: the exact value rounded
to one digit after the decimal point, ties to even. -/
def FormatFloat_f1 : Float64 → String
  | .NaN => "NaN"
  | .posInf => "+Inf"
  | .negInf => "-Inf"
  | .finite q =>
      let t : ℤ := roundHalfEven (|q| * 10)
      (if q < 0 then "-" else "") ++ Itoa (t / 10) ++ "." ++ Itoa (t % 10)

/-- The verb `%02x` of `fmt.Sprintf` on a byte: lowercase hexadecimal, padded
with zeros to two digits. -/
def fmt02x (b : Byte) : String :=
  String.mk (List.leftpad 2 '0' (Nat.toDigits 16 b.val))

/-! ## The outside world -/

/-- The namespace flags of `clone(2)` that `run.go` uses. -/
inductive CloneFlag where
  | CLONE_NEWPID
  | CLONE_NEWNS
  | CLONE_NEWUTS
  | CLONE_NEWIPC
  deriving DecidableEq

/-- An operation on the outside world. -/
inductive Op where
  /-- ioutil.WriteFile -/
  | WriteFile (path : String) (data : String) (perm : Nat)
  /-- os.Remove -/
  | Remove (path : String)
  /-- os.RemoveAll -/
  | RemoveAll (path : String)
  /-- unix.Mount -/
  | Mount (source target fstype : String) (flags : Nat) (data : String)
  /-- unix.Unmount -/
  | Unmount (target : String) (flags : Nat)
  /-- exec.Cmd.Run of the given path and argument vector with the given clone
  flags; `stdin` tells whether standard input is inherited -/
  | Run (path : String) (args : List String) (cloneflags : List CloneFlag) (stdin : Bool)
  /-- rand.Read into a slice of the given length -/
  | RandRead (n : Nat)
  /-- fmt.Printf and fmt.Println -/
  | Print (text : String)
  /-- log.Printf and log.Println -/
  | Log (text : String)
  /-- utils.EnsureDirs -/
  | EnsureDirs (dirs : List String)
  /-- network accessor -/
  | IsFDockerBridgeUp
  /-- network accessor -/
  | SetupFDockerBridge
  /-- network accessor -/
  | SetupVirtualEthOnHost (containerID : String)
  /-- the unmount of the network namespace handle of a container, performed
  by the network accessor -/
  | UnmountNetworkNamespace (containerID : String)
  /-- image accessor -/
  | DownloadImageIfRequired (src : String)
  /-- image accessor -/
  | ParseManifest (path : String)
  deriving DecidableEq

/-- The values the flag set holds after `Parse`. -/
structure Flags where
  mem : Int
  swap : Int
  pids : Int
  cpus : Float64
  read_bps : String
  read_iops : String
  write_bps : String
  write_iops : String
  /-- the positional arguments, `fs.Args()` -/
  args : List String

/-- The outside world.  Every answer may depend on the operations performed
before it. -/
structure Env where
  /-- the error an operation returns, `none` for success -/
  respond : List Op → Op → Option String
  /-- whether a function of this repository that is not among the sources
  terminates the process instead of returning -/
  dies : List Op → Op → Bool
  /-- os.Getpid -/
  pid : Int
  /-- runtime.NumCPU -/
  numCPU : Int
  /-- the platform result of an `int(f)` conversion that is out of range -/
  intOutOfRange : Int
  /-- os.Args -/
  osArgs : List String
  /-- the six bytes `rand.Read` delivers -/
  randBytes : List Op → Fin 6 → Byte
  /-- FlagSet.Parse of the pflag library: from the arguments and the defaults
  of the flags to what the flag set holds afterwards and the error returned -/
  flagParse : List String → Flags → Flags × Option String
  /-- the first result of `IsFDockerBridgeUp` -/
  bridgeUp : List Op → Bool
  /-- the result of `DownloadImageIfRequired` -/
  imageShaHex : List Op → String → String
  /-- the field `Layers` of the result of `ParseManifest` -/
  manifestLayers : List Op → String → List String
  /-- image accessor, `GetManifestPathForImage` -/
  GetManifestPathForImage : String → String
  /-- image accessor, `GetBasePathForImage` -/
  GetBasePathForImage : String → String
  /-- workdirs.GetContainerFSHome -/
  GetContainerFSHome : String → String
  /-- workdirs.ContainersPath -/
  ContainersPath : String
  /-- path.Join of the standard library -/
  pathJoin : List String → String

/-- How a program ends: it returns a value, or the process terminates
(`os.Exit` through `log.Fatalf`, a run-time panic); in both cases with the
operations performed so far. -/
inductive Result (α : Type) where
  | done (a : α) (trace : List Op)
  | exit (msg : String) (trace : List Op)

/-- The operations performed. -/
def Result.trace {α : Type} : Result α → List Op
  | .done _ t => t
  | .exit _ t => t

/-- The process was terminated. -/
def Result.isExit {α : Type} : Result α → Bool
  | .done _ _ => false
  | .exit _ _ => true

/-- A program: from the world and the operations so far to a result. -/
def Prog (α : Type) : Type := Env → List Op → Result α

/-- Return a value. -/
def Prog.pure {α : Type} (a : α) : Prog α := fun _ h => Result.done a h

/-- Sequencing: the second program runs only when the first returned. -/
def Prog.bind {α β : Type} (m : Prog α) (f : α → Prog β) : Prog β := fun env h =>
  match m env h with
  | .done a h1 => f a env h1
  | .exit msg h1 => .exit msg h1

instance : Monad Prog where
  pure := Prog.pure
  bind := Prog.bind

/-- Read the world. -/
def getEnv : Prog Env := fun env h => Result.done env h

/-- The operations performed so far. -/
def getTrace : Prog (List Op) := fun _ h => Result.done h h

/-- Perform an operation of the kernel or of a library: it is recorded and its
error (if any) is returned. -/
def call (op : Op) : Prog (Option String) := fun env h =>
  Result.done (env.respond h op) (h ++ [op])

/-- Call a function of this repository that is not among the sources: the call
is recorded; the callee either terminates the process or returns its error (if
any). -/
def callee (op : Op) : Prog (Option String) := fun env h =>
  if env.dies h op then Result.exit "terminated by the callee" (h ++ [op])
  else Result.done (env.respond h op) (h ++ [op])

/-- Write to standard output or to the log: the text is recorded, a failure
to write it is ignored. -/
def say (op : Op) : Prog Unit := fun _ h => Result.done () (h ++ [op])

/-- Terminate the process: `log.Fatalf`, or a run-time panic. -/
def fatal {α : Type} (msg : String) : Prog α := fun _ h => Result.exit msg h

/-- The idiom `if err != nil { log.Fatalf(...) }`; `msg` builds the text from
the error. -/
def fatalIf (err : Option String) (msg : String → String) : Prog Unit :=
  match err with
  | none => pure ()
  | some e => fatal (msg e)

/-- Modelled from the spec: `utils.MustWithMsg` is not among the sources.  The
spec says that the failure of any write is fatal (the process exits):
an error terminates the process, no error returns. -/
def MustWithMsg (err : Option String) (msg : String) : Prog Unit :=
  match err with
  | none => pure ()
  | some e => fatal (msg ++ ": " ++ e)

/-- Modelled from the spec: `utils.Must` is not among the sources.  The spec
says that every stage must succeed before the orchestrator proceeds and that a
failed staging step is fatal: an error terminates the process. -/
def Must (err : Option String) : Prog Unit :=
  match err with
  | none => pure ()
  | some e => fatal e

/-! ## cgroups/accessor.go -/

/-- The body of the loop of `CreateCGroups` over the directories. -/
def CreateCGroups.loop : List String → Prog Unit
  | [] => pure ()
  | cgroupDir :: rest => do
      let env ← getEnv
      let e1 ← call (Op.WriteFile (cgroupDir ++ "/notify_on_release") "1" 0o700)
      MustWithMsg e1 "Unable to write to cgroup notification file"
      let e2 ← call (Op.WriteFile (cgroupDir ++ "/cgroup.procs") (Itoa env.pid) 0o700)
      MustWithMsg e2 "Unable to write to cgroup procs file"
      CreateCGroups.loop rest

/-- Accessor.CreateCGroups -/
def CreateCGroups (containerID : String) (createCGroupDirs : Bool) : Prog Unit := do
  let cgroups := ["/sys/fs/cgroup/memory/fdocker/" ++ containerID,
    "/sys/fs/cgroup/pids/fdocker/" ++ containerID,
    "/sys/fs/cgroup/cpu/fdocker/" ++ containerID,
    "/sys/fs/cgroup/blkio/fdocker/" ++ containerID,
    "/sys/fs/cgroup/devices/fdocker/" ++ containerID]
  (if createCGroupDirs then do
    let e ← callee (Op.EnsureDirs cgroups)
    MustWithMsg e "Unable to create cgroup directories"
  else pure ())
  CreateCGroups.loop cgroups

/-- The body of the loop of `RemoveCGroups` over the directories. -/
def RemoveCGroups.loop : List String → Prog Unit
  | [] => pure ()
  | cgroupDir :: rest => do
      let e ← call (Op.Remove cgroupDir)
      MustWithMsg e "Unable to remove cgroup dir"
      RemoveCGroups.loop rest

/-- Accessor.RemoveCGroups -/
def RemoveCGroups (containerID : String) : Prog Unit := do
  let cgroups := ["/sys/fs/cgroup/memory/fdocker/" ++ containerID,
    "/sys/fs/cgroup/pids/fdocker/" ++ containerID,
    "/sys/fs/cgroup/cpu/fdocker/" ++ containerID,
    "/sys/fs/cgroup/blkio/fdocker/" ++ containerID,
    "/sys/fs/cgroup/devices/fdocker/" ++ containerID]
  RemoveCGroups.loop cgroups

/-- Accessor.setMemoryLimit -/
def setMemoryLimit (containerID : String) (limitMB : Int) (swapLimitInMB : Int) : Prog Unit := do
  let memFilePath := "/sys/fs/cgroup/memory/fdocker/" ++ containerID ++ "/memory.limit_in_bytes"
  let swapFilePath := "/sys/fs/cgroup/memory/fdocker/" ++ containerID ++
    "/memory.memsw.limit_in_bytes"
  let e1 ← call (Op.WriteFile memFilePath (Itoa (intMul (intMul limitMB 1024) 1024)) 0o644)
  MustWithMsg e1 "Unable to write memory limit"
  if swapLimitInMB ≥ 0 then
    let e2 ← call (Op.WriteFile swapFilePath
      (Itoa (intAdd (intMul (intMul limitMB 1024) 1024) (intMul (intMul swapLimitInMB 1024) 1024)))
      0o644)
    MustWithMsg e2 "Unable to write memory limit"

/-- Accessor.setCpuLimit -/
def setCpuLimit (containerID : String) (limit : Float64) : Prog Unit := do
  let env ← getEnv
  let cfsPeriodPath := "/sys/fs/cgroup/cpu/fdocker/" ++ containerID ++ "/cpu.cfs_period_us"
  let cfsQuotaPath := "/sys/fs/cgroup/cpu/fdocker/" ++ containerID ++ "/cpu.cfs_quota_us"
  if limit.gt (Float64.ofInt env.numCPU) then
    say (Op.Print "Ignoring attempt to set CPU quota to great than number of available CPUs")
    return ()
  else
    let e1 ← call (Op.WriteFile cfsPeriodPath (Itoa 1000000) 0o644)
    MustWithMsg e1 "Unable to write CFS period"
    let e2 ← call (Op.WriteFile cfsQuotaPath
      (Itoa (Float64.toInt env.intOutOfRange (Float64.mul (Float64.finite 1000000) limit))) 0o644)
    MustWithMsg e2 "Unable to write CFS period"

/-- Accessor.setPidsLimit -/
def setPidsLimit (containerID : String) (limit : Int) : Prog Unit := do
  let maxProcsPath := "/sys/fs/cgroup/pids/fdocker/" ++ containerID ++ "/pids.max"
  let e ← call (Op.WriteFile maxProcsPath (Itoa limit) 0o644)
  MustWithMsg e "Unable to write pids limit"

/-- Accessor.setReadbps -/
def setReadbps (containerID : String) (limit : String) : Prog Unit := do
  say (Op.Print ("read_bps_device: " ++ limit ++ "\n"))
  let path := "/sys/fs/cgroup/blkio/fdocker/" ++ containerID ++ "/blkio.throttle.read_bps_device"
  let e ← call (Op.WriteFile path limit 0o644)
  MustWithMsg e "Unable to setReadbps"

/-- Accessor.setReadiops -/
def setReadiops (containerID : String) (limit : String) : Prog Unit := do
  say (Op.Print ("read_iops_device: " ++ limit ++ "\n"))
  let path := "/sys/fs/cgroup/blkio/fdocker/" ++ containerID ++ "/blkio.throttle.read_iops_device"
  let e ← call (Op.WriteFile path limit 0o644)
  MustWithMsg e "Unable to setReadiops"

/-- Accessor.setWritebps -/
def setWritebps (containerID : String) (limit : String) : Prog Unit := do
  say (Op.Print ("write_bps_device: " ++ limit ++ "\n"))
  let path := "/sys/fs/cgroup/blkio/fdocker/" ++ containerID ++ "/blkio.throttle.write_bps_device"
  let e ← call (Op.WriteFile path limit 0o644)
  MustWithMsg e "Unable to setWritebps"

/-- Accessor.setWriteiops -/
def setWriteiops (containerID : String) (limit : String) : Prog Unit := do
  say (Op.Print ("write_iops_device: " ++ limit ++ "\n"))
  let path := "/sys/fs/cgroup/blkio/fdocker/" ++ containerID ++ "/blkio.throttle.write_iops_device"
  let e ← call (Op.WriteFile path limit 0o644)
  MustWithMsg e "Unable to setWriteiops"

/-- Accessor.ConfigureCGroups -/
def ConfigureCGroups (containerID : String) (mem : Int) (swap : Int) (pids : Int)
    (cpus : Float64) (read_bps : String) (read_iops : String) (write_bps : String)
    (write_iops : String) : Prog Unit := do
  (if mem > 0 then setMemoryLimit containerID mem swap else pure ())
  (if cpus.gt (Float64.finite 0) then setCpuLimit containerID cpus else pure ())
  (if pids > 0 then setPidsLimit containerID pids else pure ())
  (if read_bps ≠ "" then setReadbps containerID read_bps else pure ())
  (if read_iops ≠ "" then setReadiops containerID read_iops else pure ())
  (if write_bps ≠ "" then setWritebps containerID write_bps else pure ())
  (if write_iops ≠ "" then setWriteiops containerID write_iops else pure ())

/-! ## cmds/impls/run/run.go -/

/-- The type `runArgs`. -/
structure runArgs where
  mem : Int
  swap : Int
  pids : Int
  cpus : Float64
  read_bps : String
  read_iops : String
  write_bps : String
  write_iops : String
  imageName : String
  commands : List String

/-- The flags `parseFlags` declares, at their defaults. -/
def defaultFlags : Flags :=
  { mem := -1, swap := -1, pids := -1, cpus := Float64.finite (-1),
    read_bps := "", read_iops := "", write_bps := "", write_iops := "", args := [] }

/-- The function `parseFlags`. -/
def parseFlags : Prog runArgs := do
  let env ← getEnv
  if env.osArgs.length < 2 then
    fatal "panic: slice bounds out of range"
  else
    let parsed := env.flagParse (env.osArgs.drop 2) defaultFlags
    let fs := parsed.1
    (match parsed.2 with
      | some err => say (Op.Print ("Error parsing:  " ++ err ++ "\n"))
      | none => pure ())
    if fs.args.length < 2 then
      fatal "Please pass image name and command to run"
    else
      return { mem := fs.mem, swap := fs.swap, pids := fs.pids, cpus := fs.cpus,
               read_bps := fs.read_bps, read_iops := fs.read_iops,
               write_bps := fs.write_bps, write_iops := fs.write_iops,
               imageName := fs.args.headD "", commands := fs.args.drop 1 }

/-- The function `setUpBridge`. -/
def setUpBridge : Prog Unit := do
  let env ← getEnv
  let h ← getTrace
  let _ ← callee Op.IsFDockerBridgeUp
  let isUp := env.bridgeUp h
  if !isUp then
    say (Op.Log "Bringing up the fdocker0 bridge...\n")
    let err ← callee Op.SetupFDockerBridge
    fatalIf err fun e => "Unable to create fdocker0 bridge: " ++ e

/-- The function `createContainerID`. -/
def createContainerID : Prog String := do
  let env ← getEnv
  let h ← getTrace
  say (Op.RandRead 6)
  let randBytes := env.randBytes h
  return fmt02x (randBytes 0) ++ fmt02x (randBytes 1) ++ fmt02x (randBytes 2) ++
    fmt02x (randBytes 3) ++ fmt02x (randBytes 4) ++ fmt02x (randBytes 5)

/-- The function `getContainerMntPath`. -/
def getContainerMntPath (env : Env) (containerID : String) : String :=
  env.pathJoin [env.GetContainerFSHome containerID, "mnt"]

/-- The function `getContainerUpperDirPath`. -/
def getContainerUpperDirPath (env : Env) (containerID : String) : String :=
  env.pathJoin [env.GetContainerFSHome containerID, "upperdir"]

/-- The function `getContainerWorkDirPath`. -/
def getContainerWorkDirPath (env : Env) (containerID : String) : String :=
  env.pathJoin [env.GetContainerFSHome containerID, "workdir"]

/-- The function `createContainerDirectories`. -/
def createContainerDirectories (containerID : String) : Prog Unit := do
  let env ← getEnv
  let contDirs := [env.GetContainerFSHome containerID,
    getContainerMntPath env containerID,
    getContainerUpperDirPath env containerID,
    getContainerWorkDirPath env containerID]
  let err ← callee (Op.EnsureDirs contDirs)
  fatalIf err fun e => "Unable to create required directories: " ++ e ++ "\n"

/-- The loop of `mountOverlayFileSystem` over the layers of the manifest: each
layer path is put in front of the ones collected so far.  `layer[:12]`
panics on a layer name shorter than 12. -/
def mountOverlayFileSystem.loop (imageBasePath : String) :
    List String → List String → Prog (List String)
  | [], srcLayers => pure srcLayers
  | layer :: rest, srcLayers =>
      if layer.length < 12 then
        fatal "panic: slice bounds out of range"
      else
        mountOverlayFileSystem.loop imageBasePath rest
          ([imageBasePath ++ "/" ++ layer.take 12 ++ "/fs"] ++ srcLayers)

/-- The function `mountOverlayFileSystem`. -/
def mountOverlayFileSystem (containerID : String) (imageShaHex : String) : Prog Unit := do
  let env ← getEnv
  let h ← getTrace
  let pathManifest := env.GetManifestPathForImage imageShaHex
  let _ ← callee (Op.ParseManifest pathManifest)
  let layers := env.manifestLayers h pathManifest
  let imageBasePath := env.GetBasePathForImage imageShaHex
  let srcLayers ← mountOverlayFileSystem.loop imageBasePath layers []
  let contFSHome := env.GetContainerFSHome containerID
  let mntOptions := "lowerdir=" ++ String.intercalate ":" srcLayers ++ ",upperdir=" ++
    contFSHome ++ "/upperdir,workdir=" ++ contFSHome ++ "/workdir"
  let err ← call (Op.Mount "/dev/sda5" (contFSHome ++ "/mnt") "overlay" 0 mntOptions)
  fatalIf err fun e => "Mount failed: " ++ e ++ "\n"

/-- Modelled from the spec: the method `UnmountNetworkNamespace` of the network
accessor is not among the sources.  The spec says that the teardown unmounts
the container's network namespace handle and that each teardown step is
independently fatal on error; `run.go` calls the method as a statement, so it
hands no error back: it unmounts the handle and an error terminates the
process. -/
def UnmountNetworkNamespace (containerID : String) : Prog Unit := do
  let err ← call (Op.UnmountNetworkNamespace containerID)
  fatalIf err fun e => "Unable to unmount network namespace: " ++ e

/-- The function `unmountNetworkNamespace`. -/
def unmountNetworkNamespace (containerID : String) : Prog Unit :=
  UnmountNetworkNamespace containerID

/-- The function `unmountContainerFs`.  Its first statement computes a
`path.Join` and drops the result. -/
def unmountContainerFs (containerID : String) : Prog Unit := do
  let env ← getEnv
  let mountedPath := env.ContainersPath ++ "/" ++ containerID ++ "/fs/mnt"
  let err ← call (Op.Unmount mountedPath 0)
  fatalIf err fun e => "Uable to mount container file system: " ++ e ++ " at " ++ mountedPath

/-- The flags `prepareAndExecuteContainer` hands to the child-mode stage. -/
def childOpts (mem : Int) (swap : Int) (pids : Int) (cpus : Float64) (read_bps : String)
    (read_iops : String) (write_bps : String) (write_iops : String)
    (imageShaHex : String) : List String :=
  let opts : List String := []
  let opts := if mem > 0 then opts ++ ["--mem=" ++ Itoa mem] else opts
  let opts := if swap ≥ 0 then opts ++ ["--swap=" ++ Itoa swap] else opts
  let opts := if pids > 0 then opts ++ ["--pids=" ++ Itoa pids] else opts
  let opts := if cpus.gt (Float64.finite 0) then opts ++ ["--cpus=" ++ FormatFloat_f1 cpus]
    else opts
  let opts := if read_bps ≠ "" then opts ++ ["--device-read-bps=" ++ read_bps] else opts
  let opts := if read_iops ≠ "" then opts ++ ["--device-read-iops=" ++ read_iops] else opts
  let opts := if write_bps ≠ "" then opts ++ ["--device-write-bps=" ++ write_bps] else opts
  let opts := if write_iops ≠ "" then opts ++ ["--device-write-iops=" ++ write_iops] else opts
  opts ++ ["--img=" ++ imageShaHex]

/-- The argument vector of the child-mode stage. -/
def childArgs (mem : Int) (swap : Int) (pids : Int) (cpus : Float64) (read_bps : String)
    (read_iops : String) (write_bps : String) (write_iops : String)
    (containerID : String) (imageShaHex : String) (cmdArgs : List String) : List String :=
  let opts := childOpts mem swap pids cpus read_bps read_iops write_bps write_iops imageShaHex
  let args := [containerID] ++ cmdArgs
  let args := opts ++ args
  ["child-mode"] ++ args

/-- The function `prepareAndExecuteContainer`. -/
def prepareAndExecuteContainer (mem : Int) (swap : Int) (pids : Int) (cpus : Float64)
    (read_bps : String) (read_iops : String) (write_bps : String) (write_iops : String)
    (containerID : String) (imageShaHex : String) (cmdArgs : List String) : Prog Unit := do
  let e1 ← call (Op.Run "/proc/self/exe" ["/proc/self/exe", "setup-netns", containerID] [] false)
  Must e1
  let e2 ← call (Op.Run "/proc/self/exe" ["/proc/self/exe", "setup-veth", containerID] [] false)
  Must e2
  let args := childArgs mem swap pids cpus read_bps read_iops write_bps write_iops
    containerID imageShaHex cmdArgs
  let e3 ← call (Op.Run "/proc/self/exe" (["/proc/self/exe"] ++ args)
    [CloneFlag.CLONE_NEWPID, CloneFlag.CLONE_NEWNS, CloneFlag.CLONE_NEWUTS,
     CloneFlag.CLONE_NEWIPC] true)
  Must e3

/-- The statements of `initContainer` up to the call of
`prepareAndExecuteContainer`; they yield the container ID and the image
digest. -/
def initContainer.setup (args : runArgs) : Prog (String × String) := do
  let env ← getEnv
  let containerID ← createContainerID
  say (Op.Log ("New container ID: " ++ containerID ++ "\n"))
  let h ← getTrace
  let _ ← callee (Op.DownloadImageIfRequired args.imageName)
  let imageShaHex := env.imageShaHex h args.imageName
  say (Op.Log ("Image to overlay mount: " ++ imageShaHex ++ "\n"))
  createContainerDirectories containerID
  mountOverlayFileSystem containerID imageShaHex
  let err ← callee (Op.SetupVirtualEthOnHost containerID)
  fatalIf err fun e => "Unable to setup Veth0 on host: " ++ e
  return (containerID, imageShaHex)

/-- The statements of `initContainer` after the call of
`prepareAndExecuteContainer`: the teardown. -/
def initContainer.teardown (containerID : String) : Prog Unit := do
  let env ← getEnv
  say (Op.Log "Container done.\n")
  unmountNetworkNamespace containerID
  unmountContainerFs containerID
  RemoveCGroups containerID
  let _ ← call (Op.RemoveAll (env.ContainersPath ++ "/" ++ containerID))
  return ()

/-- The function `initContainer`. -/
def initContainer (args : runArgs) : Prog Unit := do
  let ids ← initContainer.setup args
  prepareAndExecuteContainer args.mem args.swap args.pids args.cpus args.read_bps
    args.read_iops args.write_bps args.write_iops ids.1 ids.2 args.commands
  initContainer.teardown ids.1

/-- Executor.Exec -/
def Exec : Prog Unit := do
  let runArgs ← parseFlags
  setUpBridge
  initContainer runArgs


/-! ## Vocabulary of the statements -/

/-- Every operation the program performs at `env` satisfies `S`: the
operations of the result are the earlier ones followed by operations in `S`. -/
def EmitsAt {α : Type} (env : Env) (p : Prog α) (S : Op → Prop) : Prop :=
  ∀ h, ∃ l, (p env h).trace = h ++ l ∧ ∀ op ∈ l, S op

/-- How the sources treat the outcome of an operation. -/
inductive Handling where
  /-- a kernel or library call whose error terminates the process -/
  | checked
  /-- a kernel or library call whose error is dropped -/
  | dropped
  /-- a function of this repository that is not among the sources, whose
  error terminates the process -/
  | calleeChecked
  /-- a function of this repository that is not among the sources, whose
  error (if it returns one) is dropped -/
  | calleeDropped
  /-- output, or the random source: nothing to fail -/
  | silent
  deriving DecidableEq

/-- How `accessor.go` and `run.go` treat the outcome of each operation. -/
def Op.handling : Op → Handling
  | .WriteFile _ _ _ => .checked
  | .Remove _ => .checked
  | .RemoveAll _ => .dropped
  | .Mount _ _ _ _ _ => .checked
  | .Unmount _ _ => .checked
  | .Run _ _ _ _ => .checked
  | .RandRead _ => .silent
  | .Print _ => .silent
  | .Log _ => .silent
  | .EnsureDirs _ => .calleeChecked
  | .IsFDockerBridgeUp => .calleeDropped
  | .SetupFDockerBridge => .calleeChecked
  | .SetupVirtualEthOnHost _ => .calleeChecked
  | .UnmountNetworkNamespace _ => .checked
  | .DownloadImageIfRequired _ => .calleeDropped
  | .ParseManifest _ => .calleeDropped

/-- The operation `op`, performed after the operations `h`, ends the run: it
returns an error that is checked, or the callee terminates the process. -/
def Env.stops (env : Env) (h : List Op) (op : Op) : Bool :=
  match op.handling with
  | .checked => (env.respond h op).isSome
  | .dropped => false
  | .calleeChecked => env.dies h op || (env.respond h op).isSome
  | .calleeDropped => env.dies h op
  | .silent => false

/-- None of the operations `ops`, performed in this order after the operations
`h`, ends the run.  Only the answers to these operations, each after the ones
before it, are constrained. -/
def Env.passes (env : Env) : List Op → List Op → Bool
  | _, [] => true
  | h, op :: rest => !env.stops h op && env.passes (h ++ [op]) rest

/-- Started after the operations `h`, the program `p` performs the operations
`ops` in this order and ends at the first of them that ends the run: when none
does, it returns `a` after all of `ops`; when `op` is the first that does, the
process is terminated with `op` as its last operation. -/
def Follows {α : Type} (env : Env) (p : Prog α) (h : List Op) (ops : List Op) (a : α) : Prop :=
  (env.passes h ops = true → p env h = Result.done a (h ++ ops)) ∧
  (∀ pre op post, ops = pre ++ op :: post → env.passes h pre = true →
    env.stops (h ++ pre) op = true →
    (p env h).isExit = true ∧ (p env h).trace = h ++ pre ++ [op])

/-- A check of an error: no error returns, an error terminates the process. -/
def IsCheck (chk : Option String → Prog Unit) : Prop :=
  chk none = pure () ∧ ∀ e, ∃ msg, chk (some e) = fatal msg

/-- The five control-group directories of a container, as the spec lists
them. -/
def cgroupDirs (containerID : String) : List String :=
  ["/sys/fs/cgroup/memory/fdocker/" ++ containerID,
   "/sys/fs/cgroup/pids/fdocker/" ++ containerID,
   "/sys/fs/cgroup/cpu/fdocker/" ++ containerID,
   "/sys/fs/cgroup/blkio/fdocker/" ++ containerID,
   "/sys/fs/cgroup/devices/fdocker/" ++ containerID]

/-- The operations of `CreateCGroups` when nothing fails: the creation of the
five directories (only when asked for) and, directory by directory, the write
of `1` to `notify_on_release` and of the process ID to `cgroup.procs`. -/
def CreateCGroups.ops (env : Env) (containerID : String) (createCGroupDirs : Bool) : List Op :=
  (if createCGroupDirs then [Op.EnsureDirs (cgroupDirs containerID)] else []) ++
  (cgroupDirs containerID).foldr (fun dir acc =>
    Op.WriteFile (dir ++ "/notify_on_release") "1" 0o700 ::
    Op.WriteFile (dir ++ "/cgroup.procs") (Itoa env.pid) 0o700 :: acc) []

/-- The operations of `RemoveCGroups` when nothing fails: the removal of the
five directories. -/
def RemoveCGroups.ops (containerID : String) : List Op :=
  (cgroupDirs containerID).map Op.Remove

/-- The operations of `setMemoryLimit` when no write fails. -/
def setMemoryLimit.ops (containerID : String) (limitMB swap : Int) : List Op :=
  [Op.WriteFile ("/sys/fs/cgroup/memory/fdocker/" ++ containerID ++ "/memory.limit_in_bytes")
    (Itoa (intMul (intMul limitMB 1024) 1024)) 0o644] ++
  (if 0 ≤ swap then
    [Op.WriteFile ("/sys/fs/cgroup/memory/fdocker/" ++ containerID ++
      "/memory.memsw.limit_in_bytes")
      (Itoa (intAdd (intMul (intMul limitMB 1024) 1024) (intMul (intMul swap 1024) 1024)))
      0o644]
  else [])

/-- The operations of `setCpuLimit` when no write fails. -/
def setCpuLimit.ops (env : Env) (containerID : String) (limit : Float64) : List Op :=
  if limit.gt (Float64.ofInt env.numCPU) then
    [Op.Print "Ignoring attempt to set CPU quota to great than number of available CPUs"]
  else
    [Op.WriteFile ("/sys/fs/cgroup/cpu/fdocker/" ++ containerID ++ "/cpu.cfs_period_us")
      "1000000" 0o644,
     Op.WriteFile ("/sys/fs/cgroup/cpu/fdocker/" ++ containerID ++ "/cpu.cfs_quota_us")
      (Itoa (Float64.toInt env.intOutOfRange (Float64.mul (Float64.finite 1000000) limit)))
      0o644]

/-- The operations of one of the four block-device throttle setters when the
write does not fail: the notice and the write of the value. -/
def throttle.ops (label : String) (path : String) (limit : String) : List Op :=
  [Op.Print (label ++ limit ++ "\n"), Op.WriteFile path limit 0o644]

/-- The operations of `ConfigureCGroups` when no write fails. -/
def ConfigureCGroups.ops (env : Env) (containerID : String) (mem : Int) (swap : Int)
    (pids : Int) (cpus : Float64) (read_bps : String) (read_iops : String)
    (write_bps : String) (write_iops : String) : List Op :=
  (if mem > 0 then setMemoryLimit.ops containerID mem swap else []) ++
  (if cpus.gt (Float64.finite 0) then setCpuLimit.ops env containerID cpus else []) ++
  (if pids > 0 then
    [Op.WriteFile ("/sys/fs/cgroup/pids/fdocker/" ++ containerID ++ "/pids.max")
      (Itoa pids) 0o644]
   else []) ++
  (if read_bps ≠ "" then throttle.ops "read_bps_device: "
    ("/sys/fs/cgroup/blkio/fdocker/" ++ containerID ++ "/blkio.throttle.read_bps_device")
    read_bps else []) ++
  (if read_iops ≠ "" then throttle.ops "read_iops_device: "
    ("/sys/fs/cgroup/blkio/fdocker/" ++ containerID ++ "/blkio.throttle.read_iops_device")
    read_iops else []) ++
  (if write_bps ≠ "" then throttle.ops "write_bps_device: "
    ("/sys/fs/cgroup/blkio/fdocker/" ++ containerID ++ "/blkio.throttle.write_bps_device")
    write_bps else []) ++
  (if write_iops ≠ "" then throttle.ops "write_iops_device: "
    ("/sys/fs/cgroup/blkio/fdocker/" ++ containerID ++ "/blkio.throttle.write_iops_device")
    write_iops else [])

/-- A world in which every operation succeeds: a host with four cores. -/
def hostEnv : Env :=
  { respond := fun _ _ => none
    dies := fun _ _ => false
    pid := 4242
    numCPU := 4
    intOutOfRange := -9223372036854775808
    osArgs := ["f-docker", "run", "--mem", "100", "--pids", "50", "alpine", "echo", "hi"]
    randBytes := fun _ i => ⟨16 * i.val + 10, by omega⟩
    flagParse := fun _ d => ({ d with mem := 100, pids := 50, args := ["alpine", "echo", "hi"] }, none)
    bridgeUp := fun _ => true
    imageShaHex := fun _ _ => "a24bb4013296"
    manifestLayers := fun _ _ =>
      ["1111111111112222", "aaaaaaaaaaaabbbb", "cccccccccccc3333"]
    GetManifestPathForImage := fun sha => "/var/lib/fdocker/images/" ++ sha ++ "/manifest.json"
    GetBasePathForImage := fun sha => "/var/lib/fdocker/images/" ++ sha
    GetContainerFSHome := fun id => "/var/run/fdocker/containers/" ++ id ++ "/fs"
    ContainersPath := "/var/run/fdocker/containers"
    pathJoin := fun l => String.intercalate "/" l }

/-- The world of `hostEnv`, except that every operation returns an error. -/
def brokenEnv : Env :=
  { hostEnv with respond := fun _ _ => some "permission denied" }

/-- The lowercase hexadecimal digit of a value below 16, as the spec words it:
`0`-`9`, then `a`-`f`. -/
def hexDigit (n : Nat) : Char := "0123456789abcdef".data.getD n '0'

/-- The two-digit lowercase hexadecimal encoding of a sequence of bytes, in
order. -/
def hexEncode : List Byte → List Char
  | [] => []
  | b :: rest => hexDigit (b.val / 16) :: hexDigit (b.val % 16) :: hexEncode rest

/-- The identity `createContainerID` yields after the operations `h`. -/
def containerIDAt (env : Env) (h : List Op) : String :=
  fmt02x (env.randBytes h 0) ++ fmt02x (env.randBytes h 1) ++ fmt02x (env.randBytes h 2) ++
    fmt02x (env.randBytes h 3) ++ fmt02x (env.randBytes h 4) ++ fmt02x (env.randBytes h 5)

/-- The image digest `initContainer` obtains when it starts after the
operations `h`. -/
def setupImage (env : Env) (args : runArgs) (h : List Op) : String :=
  env.imageShaHex
    (h ++ [Op.RandRead 6, Op.Log ("New container ID: " ++ containerIDAt env h ++ "\n")])
    args.imageName

/-- The first steps of `initContainer` when nothing fails: generate the
container ID, resolve the image, create the container directories. -/
def setupOps.resolve (env : Env) (args : runArgs) (h : List Op) : List Op :=
  [Op.RandRead 6,
   Op.Log ("New container ID: " ++ containerIDAt env h ++ "\n"),
   Op.DownloadImageIfRequired args.imageName,
   Op.Log ("Image to overlay mount: " ++ setupImage env args h ++ "\n"),
   Op.EnsureDirs [env.GetContainerFSHome (containerIDAt env h),
     env.pathJoin [env.GetContainerFSHome (containerIDAt env h), "mnt"],
     env.pathJoin [env.GetContainerFSHome (containerIDAt env h), "upperdir"],
     env.pathJoin [env.GetContainerFSHome (containerIDAt env h), "workdir"]]]

/-- The layers of the manifest `initContainer` reads when it starts after the
operations `h`. -/
def setupLayers (env : Env) (args : runArgs) (h : List Op) : List String :=
  env.manifestLayers (h ++ setupOps.resolve env args h)
    (env.GetManifestPathForImage (setupImage env args h))

/-- The steps of `initContainer` before the stages when nothing fails: generate
the container ID, resolve the image, create the container directories, mount
the overlay, attach the host veth. -/
def setupOps (env : Env) (args : runArgs) (h : List Op) : List Op :=
  setupOps.resolve env args h ++
  [Op.ParseManifest (env.GetManifestPathForImage (setupImage env args h)),
   Op.Mount "/dev/sda5" (env.GetContainerFSHome (containerIDAt env h) ++ "/mnt") "overlay" 0
     ("lowerdir=" ++
       String.intercalate ":"
         ((setupLayers env args h).map (fun layer =>
           env.GetBasePathForImage (setupImage env args h) ++ "/" ++ layer.take 12 ++
             "/fs")).reverse ++
       ",upperdir=" ++ env.GetContainerFSHome (containerIDAt env h) ++ "/upperdir,workdir=" ++
       env.GetContainerFSHome (containerIDAt env h) ++ "/workdir"),
   Op.SetupVirtualEthOnHost (containerIDAt env h)]

/-- The three stages, in order: `setup-netns <id>`, `setup-veth <id>`,
`child-mode <flags...> --img=<digest> <id> <command...>`. -/
def stageOps (args : runArgs) (containerID imageShaHex : String) : List Op :=
  [Op.Run "/proc/self/exe" ["/proc/self/exe", "setup-netns", containerID] [] false,
   Op.Run "/proc/self/exe" ["/proc/self/exe", "setup-veth", containerID] [] false,
   Op.Run "/proc/self/exe"
     (["/proc/self/exe"] ++ childArgs args.mem args.swap args.pids args.cpus args.read_bps
       args.read_iops args.write_bps args.write_iops containerID imageShaHex args.commands)
     [CloneFlag.CLONE_NEWPID, CloneFlag.CLONE_NEWNS, CloneFlag.CLONE_NEWUTS,
       CloneFlag.CLONE_NEWIPC] true]

/-- The teardown when nothing fails, in order: unmount the network namespace,
unmount the filesystem, remove the control groups, remove the directories. -/
def teardownOps (env : Env) (containerID : String) : List Op :=
  [Op.Log "Container done.\n",
   Op.UnmountNetworkNamespace containerID,
   Op.Unmount (env.ContainersPath ++ "/" ++ containerID ++ "/fs/mnt") 0] ++
  RemoveCGroups.ops containerID ++
  [Op.RemoveAll (env.ContainersPath ++ "/" ++ containerID)]

/-- The run arguments `parseFlags` returns. -/
def Exec.args (env : Env) : runArgs :=
  let fs := (env.flagParse (env.osArgs.drop 2) defaultFlags).1
  { mem := fs.mem, swap := fs.swap, pids := fs.pids, cpus := fs.cpus,
    read_bps := fs.read_bps, read_iops := fs.read_iops,
    write_bps := fs.write_bps, write_iops := fs.write_iops,
    imageName := fs.args.headD "", commands := fs.args.drop 1 }

/-- The operations of `Exec` up to the bridge when nothing fails: the notice
of a parse error (if any), the bridge check and, when the bridge is down, its
creation. -/
def Exec.bridgeOps (env : Env) : List Op :=
  (match (env.flagParse (env.osArgs.drop 2) defaultFlags).2 with
    | some err => [Op.Print ("Error parsing:  " ++ err ++ "\n")]
    | none => []) ++
  [Op.IsFDockerBridgeUp] ++
  (if env.bridgeUp (match (env.flagParse (env.osArgs.drop 2) defaultFlags).2 with
      | some err => [Op.Print ("Error parsing:  " ++ err ++ "\n")]
      | none => []) then []
   else [Op.Log "Bringing up the fdocker0 bridge...\n", Op.SetupFDockerBridge])

/-- The operations of a run in which every step succeeds, in order: ensure
the bridge, generate the container ID, resolve the image, create the container
directories, mount the overlay, attach the host veth, the three stages, then
the teardown. -/
def Exec.ops (env : Env) : List Op :=
  Exec.bridgeOps env ++
  setupOps env (Exec.args env) (Exec.bridgeOps env) ++
  stageOps (Exec.args env) (containerIDAt env (Exec.bridgeOps env))
    (setupImage env (Exec.args env) (Exec.bridgeOps env)) ++
  teardownOps env (containerIDAt env (Exec.bridgeOps env))

/-- The world of `hostEnv`, except that `os.RemoveAll` returns an error. -/
def removeAllFailsEnv : Env :=
  { hostEnv with
    respond := fun _ op =>
      match op with
      | Op.RemoveAll _ => some "directory not empty"
      | _ => none }

/-- The world of `hostEnv`, except that unmounting returns an error. -/
def unmountFailsEnv : Env :=
  { hostEnv with
    respond := fun _ op =>
      match op with
      | Op.Unmount _ _ => some "device or resource busy"
      | _ => none }

/-- The world of `hostEnv`, except that the unmount of the network namespace
handle returns an error. -/
def netnsFailsEnv : Env :=
  { hostEnv with
    respond := fun _ op =>
      match op with
      | Op.UnmountNetworkNamespace _ => some "invalid argument"
      | _ => none }

/-- The world of `hostEnv`, except that removing the `cpu` control group
returns an error. -/
def removeFailsEnv : Env :=
  { hostEnv with
    respond := fun _ op =>
      match op with
      | Op.Remove "/sys/fs/cgroup/cpu/fdocker/0a1a2a3a4a5a" => some "device or resource busy"
      | _ => none }

/-- The world of `hostEnv`, except that the stage `setup-veth` fails. -/
def vethFailsEnv : Env :=
  { hostEnv with
    respond := fun _ op =>
      match op with
      | Op.Run _ [_, "setup-veth", _] _ _ => some "exit status 1"
      | _ => none }

/-! ## Running programs -/

section run

variable {α β : Type}

theorem bind_run (m : Prog α) (f : α → Prog β) (env : Env) (h : List Op) :
    (m >>= f) env h =
      match m env h with
      | .done a h1 => f a env h1
      | .exit msg h1 => .exit msg h1 := rfl

theorem pure_run (a : α) (env : Env) (h : List Op) :
    (pure a : Prog α) env h = Result.done a h := rfl

theorem getEnv_run (env : Env) (h : List Op) : getEnv env h = Result.done env h := rfl

theorem getTrace_run (env : Env) (h : List Op) : getTrace env h = Result.done h h := rfl

theorem call_run (op : Op) (env : Env) (h : List Op) :
    call op env h = Result.done (env.respond h op) (h ++ [op]) := rfl

theorem say_run (op : Op) (env : Env) (h : List Op) :
    say op env h = Result.done () (h ++ [op]) := rfl

theorem fatal_run (msg : String) (env : Env) (h : List Op) :
    (fatal msg : Prog α) env h = Result.exit msg h := rfl

theorem MustWithMsg_none (msg : String) : MustWithMsg none msg = pure () := rfl

theorem MustWithMsg_some (e msg : String) :
    MustWithMsg (some e) msg = fatal (msg ++ ": " ++ e) := rfl

theorem fatalIf_none (msg : String → String) : fatalIf none msg = pure () := rfl

theorem fatalIf_some (e : String) (msg : String → String) :
    fatalIf (some e) msg = fatal (msg e) := rfl

theorem Must_none : Must none = pure () := rfl

theorem Must_some (e : String) : Must (some e) = fatal e := rfl

end run

/-! ## Rounding -/

theorem roundHalfEven_intCast (z : ℤ) : roundHalfEven (z : ℚ) = z := by
  simp [roundHalfEven]

theorem float64Round_dyadic (m k : ℤ) (hm : |m| < 2 ^ 53) (hk : -1074 ≤ k) (hk2 : k ≤ 971) :
    float64Round ((m : ℚ) * (2 : ℚ) ^ k) = Float64.finite ((m : ℚ) * (2 : ℚ) ^ k) := by
  have h2 : (0 : ℚ) < 2 := by norm_num
  have hmq : |(m : ℚ)| < (2 : ℚ) ^ (53 : ℤ) := by
    have h53 : (2 : ℚ) ^ (53 : ℤ) = (2 : ℚ) ^ (53 : ℕ) := by
      rw [← zpow_natCast]; rfl
    rw [h53]
    exact_mod_cast hm
  have habs : |(m : ℚ) * (2 : ℚ) ^ k| = |(m : ℚ)| * (2 : ℚ) ^ k := by
    rw [abs_mul, abs_of_pos (zpow_pos h2 k)]
  -- the exponent of the last place is at most `k`
  have hexp : max (Int.log 2 |(m : ℚ) * (2 : ℚ) ^ k|) (-1022) - 52 ≤ k ∨ m = 0 := by
    by_cases hm0 : m = 0
    · exact Or.inr hm0
    · left
      have hpos : 0 < |(m : ℚ) * (2 : ℚ) ^ k| := by
        rw [habs]
        exact mul_pos (abs_pos.mpr (by exact_mod_cast hm0)) (zpow_pos h2 k)
      have h1 := Int.zpow_log_le_self (b := 2) (by norm_num) hpos
      have h3 : |(m : ℚ) * (2 : ℚ) ^ k| < (2 : ℚ) ^ (53 + k) := by
        rw [habs, zpow_add₀ (by norm_num)]
        exact mul_lt_mul_of_pos_right hmq (zpow_pos h2 k)
      have h4 : ((2 : ℕ) : ℚ) ^ Int.log 2 |(m : ℚ) * (2 : ℚ) ^ k| < (2 : ℚ) ^ (53 + k) :=
        lt_of_le_of_lt h1 h3
      have h5 : Int.log 2 |(m : ℚ) * (2 : ℚ) ^ k| < 53 + k := by
        have h6 : (2 : ℚ) ^ Int.log 2 |(m : ℚ) * (2 : ℚ) ^ k| < (2 : ℚ) ^ (53 + k) := by
          simpa using h4
        exact (zpow_lt_zpow_iff_right₀ (by norm_num : (1 : ℚ) < 2)).mp h6
      omega
  have hbound : |(m : ℚ) * (2 : ℚ) ^ k| < (2 : ℚ) ^ (1024 : ℕ) := by
    rw [habs]
    calc |(m : ℚ)| * (2 : ℚ) ^ k ≤ |(m : ℚ)| * (2 : ℚ) ^ (971 : ℤ) :=
          mul_le_mul_of_nonneg_left (zpow_le_zpow_right₀ (by norm_num) hk2) (abs_nonneg _)
      _ < (2 : ℚ) ^ (53 : ℤ) * (2 : ℚ) ^ (971 : ℤ) :=
          mul_lt_mul_of_pos_right hmq (zpow_pos h2 _)
      _ = (2 : ℚ) ^ (1024 : ℕ) := by
          rw [← zpow_add₀ (by norm_num), ← zpow_natCast]; rfl
  have hr : ((roundHalfEven ((m : ℚ) * (2 : ℚ) ^ k /
      (2 : ℚ) ^ (max (Int.log 2 |(m : ℚ) * (2 : ℚ) ^ k|) (-1022) - 52)) : ℤ) : ℚ) *
      (2 : ℚ) ^ (max (Int.log 2 |(m : ℚ) * (2 : ℚ) ^ k|) (-1022) - 52) = (m : ℚ) * (2 : ℚ) ^ k := by
    rcases hexp with hexp | hm0
    · set e := max (Int.log 2 |(m : ℚ) * (2 : ℚ) ^ k|) (-1022) - 52 with he
      obtain ⟨n, hn⟩ : ∃ n : ℕ, k = e + n := ⟨(k - e).toNat, by omega⟩
      have hz : (m : ℚ) * (2 : ℚ) ^ k / (2 : ℚ) ^ e = ((m * 2 ^ n : ℤ) : ℚ) := by
        rw [hn, zpow_add₀ (by norm_num), zpow_natCast]
        field_simp
        ring
      rw [hz, roundHalfEven_intCast, hn, zpow_add₀ (by norm_num), zpow_natCast]
      push_cast
      ring
    · subst hm0
      simp [roundHalfEven]
  unfold float64Round
  simp only [hr]
  have hb := abs_lt.mp hbound
  rw [if_neg (by linarith [hb.2]), if_neg (by linarith [hb.1])]

section emits

variable {α β : Type} {env : Env} {S : Op → Prop}

theorem EmitsAt.pure (a : α) : EmitsAt env (pure a : Prog α) S :=
  fun h => ⟨[], by simp [pure_run, Result.trace]⟩

theorem EmitsAt.fatal (msg : String) : EmitsAt env (fatal msg : Prog α) S :=
  fun h => ⟨[], by simp [fatal_run, Result.trace]⟩

theorem EmitsAt.call {op : Op} (hS : S op) : EmitsAt env (call op) S :=
  fun h => ⟨[op], by simp [call_run, Result.trace, hS]⟩

theorem EmitsAt.say {op : Op} (hS : S op) : EmitsAt env (say op) S :=
  fun h => ⟨[op], by simp [say_run, Result.trace, hS]⟩

theorem EmitsAt.callee {op : Op} (hS : S op) : EmitsAt env (callee op) S := by
  intro h
  refine ⟨[op], ?_, by simp [hS]⟩
  unfold FDocker.callee
  split <;> rfl

theorem EmitsAt.MustWithMsg (e : Option String) (msg : String) :
    EmitsAt env (MustWithMsg e msg) S := by
  cases e
  · exact EmitsAt.pure ()
  · exact EmitsAt.fatal _

theorem EmitsAt.Must (e : Option String) : EmitsAt env (Must e) S := by
  cases e
  · exact EmitsAt.pure ()
  · exact EmitsAt.fatal _

theorem EmitsAt.bind {m : Prog α} {f : α → Prog β} (hm : EmitsAt env m S)
    (hf : ∀ a, EmitsAt env (f a) S) : EmitsAt env (m >>= f) S := by
  intro h
  obtain ⟨l1, h1, hS1⟩ := hm h
  rw [bind_run]
  cases hr : m env h with
  | done a t =>
      rw [hr] at h1
      simp only [Result.trace] at h1
      subst h1
      obtain ⟨l2, h2, hS2⟩ := hf a (h ++ l1)
      refine ⟨l1 ++ l2, ?_, ?_⟩
      · simp only [h2, List.append_assoc]
      · intro op hop
        rcases List.mem_append.mp hop with hop | hop
        · exact hS1 op hop
        · exact hS2 op hop
  | exit msg t =>
      rw [hr] at h1
      exact ⟨l1, h1, hS1⟩

theorem EmitsAt.getEnv_bind {f : Env → Prog β} (hf : EmitsAt env (f env) S) :
    EmitsAt env (getEnv >>= f) S := by
  intro h
  rw [bind_run, getEnv_run]
  exact hf h

theorem EmitsAt.ite {c : Prop} [Decidable c] {p q : Prog α} (hp : c → EmitsAt env p S)
    (hq : ¬c → EmitsAt env q S) : EmitsAt env (if c then p else q) S := by
  split
  · exact hp ‹_›
  · exact hq ‹_›

theorem EmitsAt.mono {p : Prog α} {T : Op → Prop} (hp : EmitsAt env p S)
    (hST : ∀ op, S op → T op) : EmitsAt env p T := by
  intro h
  obtain ⟨l, hl, hS⟩ := hp h
  exact ⟨l, hl, fun op hop => hST op (hS op hop)⟩

theorem EmitsAt.when_bind {c : Prop} [Decidable c] {p : Prog Unit} {f : Unit → Prog β}
    (hp : c → EmitsAt env p S) (hf : EmitsAt env (f ()) S) :
    EmitsAt env ((if c then p else Pure.pure ()) >>= f) S :=
  EmitsAt.bind (EmitsAt.ite hp fun _ => EmitsAt.pure _) fun _ => hf

end emits


/-! ## Control groups: what is performed -/

theorem setMemoryLimit_emits (env : Env) (containerID : String) (limitMB swap : Int) :
    EmitsAt env (setMemoryLimit containerID limitMB swap)
      (fun op => op ∈ setMemoryLimit.ops containerID limitMB swap) := by
  unfold setMemoryLimit
  refine EmitsAt.bind (EmitsAt.call (by simp [setMemoryLimit.ops])) fun _ => ?_
  refine EmitsAt.bind (EmitsAt.MustWithMsg _ _) fun _ => ?_
  refine EmitsAt.ite (fun hc => ?_) (fun _ => EmitsAt.pure _)
  refine EmitsAt.bind (EmitsAt.call ?_) fun _ => EmitsAt.MustWithMsg _ _
  have hc2 : 0 ≤ swap := hc
  simp [setMemoryLimit.ops, hc2]

theorem setCpuLimit_emits (env : Env) (containerID : String) (limit : Float64) :
    EmitsAt env (setCpuLimit containerID limit)
      (fun op => op ∈ setCpuLimit.ops env containerID limit) := by
  unfold setCpuLimit
  refine EmitsAt.getEnv_bind ?_
  refine EmitsAt.ite (fun hc => ?_) (fun hc => ?_)
  · refine EmitsAt.bind (EmitsAt.say (by simp [setCpuLimit.ops, hc])) fun _ => EmitsAt.pure _
  · refine EmitsAt.bind (EmitsAt.call ?_) fun _ => ?_
    · simp [setCpuLimit.ops, hc]; left; rfl
    refine EmitsAt.bind (EmitsAt.MustWithMsg _ _) fun _ => ?_
    refine EmitsAt.bind (EmitsAt.call ?_) fun _ => EmitsAt.MustWithMsg _ _
    simp [setCpuLimit.ops, hc]

theorem setPidsLimit_emits (env : Env) (containerID : String) (limit : Int) :
    EmitsAt env (setPidsLimit containerID limit)
      (fun op => op = Op.WriteFile ("/sys/fs/cgroup/pids/fdocker/" ++ containerID ++ "/pids.max")
        (Itoa limit) 0o644) := by
  unfold setPidsLimit
  exact EmitsAt.bind (EmitsAt.call rfl) fun _ => EmitsAt.MustWithMsg _ _

theorem setReadbps_emits (env : Env) (containerID : String) (limit : String) :
    EmitsAt env (setReadbps containerID limit)
      (fun op => op ∈ throttle.ops "read_bps_device: "
        ("/sys/fs/cgroup/blkio/fdocker/" ++ containerID ++ "/blkio.throttle.read_bps_device")
        limit) := by
  unfold setReadbps
  refine EmitsAt.bind (EmitsAt.say (by simp [throttle.ops])) fun _ => ?_
  exact EmitsAt.bind (EmitsAt.call (by simp [throttle.ops])) fun _ => EmitsAt.MustWithMsg _ _

theorem setReadiops_emits (env : Env) (containerID : String) (limit : String) :
    EmitsAt env (setReadiops containerID limit)
      (fun op => op ∈ throttle.ops "read_iops_device: "
        ("/sys/fs/cgroup/blkio/fdocker/" ++ containerID ++ "/blkio.throttle.read_iops_device")
        limit) := by
  unfold setReadiops
  refine EmitsAt.bind (EmitsAt.say (by simp [throttle.ops])) fun _ => ?_
  exact EmitsAt.bind (EmitsAt.call (by simp [throttle.ops])) fun _ => EmitsAt.MustWithMsg _ _

theorem setWritebps_emits (env : Env) (containerID : String) (limit : String) :
    EmitsAt env (setWritebps containerID limit)
      (fun op => op ∈ throttle.ops "write_bps_device: "
        ("/sys/fs/cgroup/blkio/fdocker/" ++ containerID ++ "/blkio.throttle.write_bps_device")
        limit) := by
  unfold setWritebps
  refine EmitsAt.bind (EmitsAt.say (by simp [throttle.ops])) fun _ => ?_
  exact EmitsAt.bind (EmitsAt.call (by simp [throttle.ops])) fun _ => EmitsAt.MustWithMsg _ _

theorem setWriteiops_emits (env : Env) (containerID : String) (limit : String) :
    EmitsAt env (setWriteiops containerID limit)
      (fun op => op ∈ throttle.ops "write_iops_device: "
        ("/sys/fs/cgroup/blkio/fdocker/" ++ containerID ++ "/blkio.throttle.write_iops_device")
        limit) := by
  unfold setWriteiops
  refine EmitsAt.bind (EmitsAt.say (by simp [throttle.ops])) fun _ => ?_
  exact EmitsAt.bind (EmitsAt.call (by simp [throttle.ops])) fun _ => EmitsAt.MustWithMsg _ _

/-- The limits applied after the memory limit perform only operations of
`ConfigureCGroups.ops`, and so does the whole of `ConfigureCGroups`. -/
theorem ConfigureCGroups_emits (env : Env) (containerID : String) (mem swap pids : Int)
    (cpus : Float64) (read_bps read_iops write_bps write_iops : String) :
    EmitsAt env
      (ConfigureCGroups containerID mem swap pids cpus read_bps read_iops write_bps write_iops)
      (fun op => op ∈ ConfigureCGroups.ops env containerID mem swap pids cpus read_bps
        read_iops write_bps write_iops) := by
  unfold ConfigureCGroups
  apply EmitsAt.when_bind
  · exact fun hc => (setMemoryLimit_emits env containerID mem swap).mono fun op hop => by
      simp [ConfigureCGroups.ops, hc, hop]
  apply EmitsAt.when_bind
  · exact fun hc => (setCpuLimit_emits env containerID cpus).mono fun op hop => by
      simp [ConfigureCGroups.ops, hc, hop]
  apply EmitsAt.when_bind
  · exact fun hc => (setPidsLimit_emits env containerID pids).mono fun op hop => by
      simp [ConfigureCGroups.ops, hc, hop]
  apply EmitsAt.when_bind
  · exact fun hc => (setReadbps_emits env containerID read_bps).mono fun op hop => by
      simp [ConfigureCGroups.ops, hc, hop]
  apply EmitsAt.when_bind
  · exact fun hc => (setReadiops_emits env containerID read_iops).mono fun op hop => by
      simp [ConfigureCGroups.ops, hc, hop]
  apply EmitsAt.when_bind
  · exact fun hc => (setWritebps_emits env containerID write_bps).mono fun op hop => by
      simp [ConfigureCGroups.ops, hc, hop]
  apply EmitsAt.ite
  · exact fun hc => (setWriteiops_emits env containerID write_iops).mono fun op hop => by
      simp [ConfigureCGroups.ops, hc, hop]
  · exact fun _ => EmitsAt.pure _


theorem CreateCGroups_loop_emits (env : Env) (dirs : List String) :
    EmitsAt env (CreateCGroups.loop dirs) (fun op => op ∈ dirs.foldr (fun dir acc =>
      Op.WriteFile (dir ++ "/notify_on_release") "1" 0o700 ::
      Op.WriteFile (dir ++ "/cgroup.procs") (Itoa env.pid) 0o700 :: acc) []) := by
  induction dirs with
  | nil => exact EmitsAt.pure _
  | cons dir rest ih =>
      unfold CreateCGroups.loop
      refine EmitsAt.getEnv_bind ?_
      refine EmitsAt.bind (EmitsAt.call (by simp)) fun _ => ?_
      refine EmitsAt.bind (EmitsAt.MustWithMsg _ _) fun _ => ?_
      refine EmitsAt.bind (EmitsAt.call (by simp)) fun _ => ?_
      refine EmitsAt.bind (EmitsAt.MustWithMsg _ _) fun _ => ?_
      exact ih.mono fun op hop => by simp [hop]

theorem RemoveCGroups_loop_emits (env : Env) (dirs : List String) :
    EmitsAt env (RemoveCGroups.loop dirs) (fun op => op ∈ dirs.map Op.Remove) := by
  induction dirs with
  | nil => exact EmitsAt.pure _
  | cons dir rest ih =>
      unfold RemoveCGroups.loop
      refine EmitsAt.bind (EmitsAt.call (by simp)) fun _ => ?_
      refine EmitsAt.bind (EmitsAt.MustWithMsg _ _) fun _ => ?_
      exact ih.mono fun op hop => List.mem_cons_of_mem _ hop

/-! ## Control groups -/

/-- C3: when the requested core count is greater than the host's core count,
`setCpuLimit` only prints its notice and returns: it writes no file and does not
terminate the process, whatever the outside world would answer to a write.  For
a host with fewer than `2 ^ 53` cores, a finite request c is greater in this
sense exactly when `numCPU < c`. -/
theorem setCpuLimit_beyond_host (env : Env) (h : List Op) (containerID : String) :
    (∀ limit : Float64, limit.gt (Float64.ofInt env.numCPU) = true →
      setCpuLimit containerID limit env h = Result.done ()
        (h ++ [Op.Print
          "Ignoring attempt to set CPU quota to great than number of available CPUs"])) ∧
    (∀ c : ℚ, |env.numCPU| < 2 ^ 53 →
      ((Float64.finite c).gt (Float64.ofInt env.numCPU) = true ↔ (env.numCPU : ℚ) < c)) := by
  constructor
  · intro limit hgt
    simp [setCpuLimit, bind_run, getEnv_run, hgt, say_run, pure_run]
  · intro c hn
    have hr := float64Round_dyadic env.numCPU 0 hn (by norm_num) (by norm_num)
    simp only [zpow_zero, mul_one] at hr
    simp [Float64.ofInt, hr, Float64.gt]

theorem wrapInt64_of_range (n : Int) (h1 : -(2 : Int) ^ 63 ≤ n) (h2 : n < (2 : Int) ^ 63) :
    wrapInt64 n = n := by
  unfold wrapInt64
  omega

/-- What `setMemoryLimit` does, by the answers to its two writes. -/
theorem setMemoryLimit_run (env : Env) (h : List Op) (containerID : String)
    (limitMB swap : Int) (hswap : 0 ≤ swap) :
    setMemoryLimit containerID limitMB swap env h =
      match env.respond h (Op.WriteFile
        ("/sys/fs/cgroup/memory/fdocker/" ++ containerID ++ "/memory.limit_in_bytes")
        (Itoa (intMul (intMul limitMB 1024) 1024)) 0o644) with
      | some e => Result.exit ("Unable to write memory limit" ++ ": " ++ e)
          (h ++ [Op.WriteFile
            ("/sys/fs/cgroup/memory/fdocker/" ++ containerID ++ "/memory.limit_in_bytes")
            (Itoa (intMul (intMul limitMB 1024) 1024)) 0o644])
      | none =>
        match env.respond (h ++ [Op.WriteFile
            ("/sys/fs/cgroup/memory/fdocker/" ++ containerID ++ "/memory.limit_in_bytes")
            (Itoa (intMul (intMul limitMB 1024) 1024)) 0o644])
          (Op.WriteFile
            ("/sys/fs/cgroup/memory/fdocker/" ++ containerID ++ "/memory.memsw.limit_in_bytes")
            (Itoa (intAdd (intMul (intMul limitMB 1024) 1024)
              (intMul (intMul swap 1024) 1024))) 0o644) with
        | some e => Result.exit ("Unable to write memory limit" ++ ": " ++ e)
            (h ++ [Op.WriteFile
              ("/sys/fs/cgroup/memory/fdocker/" ++ containerID ++ "/memory.limit_in_bytes")
              (Itoa (intMul (intMul limitMB 1024) 1024)) 0o644,
              Op.WriteFile
              ("/sys/fs/cgroup/memory/fdocker/" ++ containerID ++ "/memory.memsw.limit_in_bytes")
              (Itoa (intAdd (intMul (intMul limitMB 1024) 1024)
                (intMul (intMul swap 1024) 1024))) 0o644])
        | none => Result.done ()
            (h ++ [Op.WriteFile
              ("/sys/fs/cgroup/memory/fdocker/" ++ containerID ++ "/memory.limit_in_bytes")
              (Itoa (intMul (intMul limitMB 1024) 1024)) 0o644,
              Op.WriteFile
              ("/sys/fs/cgroup/memory/fdocker/" ++ containerID ++ "/memory.memsw.limit_in_bytes")
              (Itoa (intAdd (intMul (intMul limitMB 1024) 1024)
                (intMul (intMul swap 1024) 1024))) 0o644]) := by
  have hs : swap ≥ 0 := hswap
  simp only [setMemoryLimit, bind_run, call_run, if_pos hs]
  cases h1 : env.respond h (Op.WriteFile
      ("/sys/fs/cgroup/memory/fdocker/" ++ containerID ++ "/memory.limit_in_bytes")
      (Itoa (intMul (intMul limitMB 1024) 1024)) 0o644) with
  | some e => simp [MustWithMsg_some, fatal_run]
  | none =>
      simp only [MustWithMsg_none, pure_run]
      cases h2 : env.respond (h ++ [Op.WriteFile
            ("/sys/fs/cgroup/memory/fdocker/" ++ containerID ++ "/memory.limit_in_bytes")
            (Itoa (intMul (intMul limitMB 1024) 1024)) 0o644])
          (Op.WriteFile
            ("/sys/fs/cgroup/memory/fdocker/" ++ containerID ++ "/memory.memsw.limit_in_bytes")
            (Itoa (intAdd (intMul (intMul limitMB 1024) 1024)
              (intMul (intMul swap 1024) 1024))) 0o644) with
      | some e => simp [MustWithMsg_some, fatal_run]
      | none => simp [MustWithMsg_none, pure_run]

/-- The byte counts `setMemoryLimit` computes do not wrap when the sum of
the two limits fits a 64-bit `int`. -/
theorem memory_bytes (mem swap : Int) (hmem : 0 < mem) (hswap : 0 ≤ swap)
    (hrange : (mem + swap) * 1048576 < 2 ^ 63) :
    intMul (intMul mem 1024) 1024 = mem * 1048576 ∧
    intAdd (intMul (intMul mem 1024) 1024) (intMul (intMul swap 1024) 1024) =
      (mem + swap) * 1048576 := by
  have e1 : intMul mem 1024 = mem * 1024 := wrapInt64_of_range _ (by omega) (by omega)
  have e2 : intMul (mem * 1024) 1024 = mem * 1048576 := by
    unfold intMul
    rw [wrapInt64_of_range _ (by omega) (by omega)]
    ring
  have e3 : intMul swap 1024 = swap * 1024 := wrapInt64_of_range _ (by omega) (by omega)
  have e4 : intMul (swap * 1024) 1024 = swap * 1048576 := by
    unfold intMul
    rw [wrapInt64_of_range _ (by omega) (by omega)]
    ring
  rw [e1, e2, e3, e4]
  refine ⟨rfl, ?_⟩
  unfold intAdd
  rw [wrapInt64_of_range _ (by omega) (by omega)]
  ring

/-- If the first step of a sequence returns, the sequence performs the
operations of the first step and then further ones. -/
theorem bind_trace_of_done {α β : Type} {env : Env} {m : Prog α}
    {f : α → Prog β} {h h1 : List Op} {a : α} (hm : m env h = Result.done a h1)
    (hf : EmitsAt env (f a) (fun _ => True)) :
    ∃ rest, ((m >>= f) env h).trace = h1 ++ rest := by
  obtain ⟨l, hl, _⟩ := hf h1
  exact ⟨l, by rw [bind_run, hm]; exact hl⟩

/-- If the first step of a sequence terminates the process, nothing follows. -/
theorem bind_of_exit {α β : Type} {env : Env} {m : Prog α} {f : α → Prog β}
    {h h1 : List Op} {msg : String} (hm : m env h = Result.exit msg h1) :
    (m >>= f) env h = Result.exit msg h1 := by
  rw [bind_run, hm]

/-- With a memory cap set, `ConfigureCGroups` begins with `setMemoryLimit`:
it ends where `setMemoryLimit` terminates the process, and otherwise goes on
from the operations of `setMemoryLimit`. -/
theorem ConfigureCGroups_after_memory (env : Env) (h : List Op) (containerID : String)
    (mem swap pids : Int) (cpus : Float64) (read_bps read_iops write_bps write_iops : String)
    (hmem : 0 < mem) :
    (∀ msg t, setMemoryLimit containerID mem swap env h = Result.exit msg t →
      ConfigureCGroups containerID mem swap pids cpus read_bps read_iops write_bps write_iops
        env h = Result.exit msg t) ∧
    (∀ t, setMemoryLimit containerID mem swap env h = Result.done () t →
      ∃ rest, (ConfigureCGroups containerID mem swap pids cpus read_bps read_iops write_bps
        write_iops env h).trace = t ++ rest) := by
  have hm : mem > 0 := hmem
  unfold ConfigureCGroups
  rw [if_pos hm]
  refine ⟨fun msg t hx => bind_of_exit hx, fun t hd => bind_trace_of_done hd ?_⟩
  apply EmitsAt.when_bind
  · exact fun _ => (setCpuLimit_emits env containerID cpus).mono fun _ _ => trivial
  apply EmitsAt.when_bind
  · exact fun _ => (setPidsLimit_emits env containerID pids).mono fun _ _ => trivial
  apply EmitsAt.when_bind
  · exact fun _ => (setReadbps_emits env containerID read_bps).mono fun _ _ => trivial
  apply EmitsAt.when_bind
  · exact fun _ => (setReadiops_emits env containerID read_iops).mono fun _ _ => trivial
  apply EmitsAt.when_bind
  · exact fun _ => (setWritebps_emits env containerID write_bps).mono fun _ _ => trivial
  apply EmitsAt.ite
  · exact fun _ => (setWriteiops_emits env containerID write_iops).mono fun _ _ => trivial
  · exact fun _ => EmitsAt.pure _

/-- C1 (as amended): for a memory cap `mem > 0` and a swap cap `swap ≥ 0` with
`(mem + swap) * 1048576` inside the 64-bit range, `ConfigureCGroups` first
writes the decimal text of `mem * 1048576` to `memory.limit_in_bytes` and, when
that write succeeds, next writes the decimal text of `(mem + swap) * 1048576`
to `memory.memsw.limit_in_bytes`. -/
theorem ConfigureCGroups_memory (env : Env) (h : List Op) (containerID : String)
    (mem swap pids : Int) (cpus : Float64) (read_bps read_iops write_bps write_iops : String)
    (hmem : 0 < mem) (hswap : 0 ≤ swap) (hrange : (mem + swap) * 1048576 < 2 ^ 63) :
    (∃ rest, (ConfigureCGroups containerID mem swap pids cpus read_bps read_iops write_bps
        write_iops env h).trace =
      h ++ Op.WriteFile
        ("/sys/fs/cgroup/memory/fdocker/" ++ containerID ++ "/memory.limit_in_bytes")
        (Itoa (mem * 1048576)) 0o644 :: rest) ∧
    (env.respond h (Op.WriteFile
        ("/sys/fs/cgroup/memory/fdocker/" ++ containerID ++ "/memory.limit_in_bytes")
        (Itoa (mem * 1048576)) 0o644) = none →
      ∃ rest, (ConfigureCGroups containerID mem swap pids cpus read_bps read_iops write_bps
          write_iops env h).trace =
        h ++ Op.WriteFile
          ("/sys/fs/cgroup/memory/fdocker/" ++ containerID ++ "/memory.limit_in_bytes")
          (Itoa (mem * 1048576)) 0o644 ::
        Op.WriteFile
          ("/sys/fs/cgroup/memory/fdocker/" ++ containerID ++ "/memory.memsw.limit_in_bytes")
          (Itoa ((mem + swap) * 1048576)) 0o644 :: rest) := by
  obtain ⟨hb1, hb2⟩ := memory_bytes mem swap hmem hswap hrange
  have hrun := setMemoryLimit_run env h containerID mem swap hswap
  rw [hb2, hb1] at hrun
  obtain ⟨hx, hd⟩ := ConfigureCGroups_after_memory env h containerID mem swap pids cpus
    read_bps read_iops write_bps write_iops hmem
  cases h1 : env.respond h (Op.WriteFile
      ("/sys/fs/cgroup/memory/fdocker/" ++ containerID ++ "/memory.limit_in_bytes")
      (Itoa (mem * 1048576)) 0o644) with
  | some e =>
      rw [h1] at hrun
      rw [hx _ _ hrun]
      exact ⟨⟨[], by simp [Result.trace]⟩, fun hn => by simp at hn⟩
  | none =>
      rw [h1] at hrun
      cases h2 : env.respond (h ++ [Op.WriteFile
            ("/sys/fs/cgroup/memory/fdocker/" ++ containerID ++ "/memory.limit_in_bytes")
            (Itoa (mem * 1048576)) 0o644])
          (Op.WriteFile
            ("/sys/fs/cgroup/memory/fdocker/" ++ containerID ++ "/memory.memsw.limit_in_bytes")
            (Itoa ((mem + swap) * 1048576)) 0o644) with
      | some e =>
          rw [h2] at hrun
          rw [hx _ _ hrun]
          exact ⟨⟨[Op.WriteFile
            ("/sys/fs/cgroup/memory/fdocker/" ++ containerID ++ "/memory.memsw.limit_in_bytes")
            (Itoa ((mem + swap) * 1048576)) 0o644], by simp [Result.trace]⟩,
            fun _ => ⟨[], by simp [Result.trace]⟩⟩
      | none =>
          rw [h2] at hrun
          obtain ⟨rest, hr⟩ := hd _ hrun
          rw [hr]
          exact ⟨⟨Op.WriteFile
            ("/sys/fs/cgroup/memory/fdocker/" ++ containerID ++ "/memory.memsw.limit_in_bytes")
            (Itoa ((mem + swap) * 1048576)) 0o644 :: rest, by simp⟩, fun _ => ⟨rest, by simp⟩⟩

/-- C1, witness: on a host where every write succeeds, `mem = 512` and
`swap = 256` write `536870912` and `805306368`. -/
theorem ConfigureCGroups_memory_witness :
    ∃ rest, (ConfigureCGroups "0a1b2c3d4e5f" 512 256 (-1) (Float64.finite (-1)) "" "" "" ""
        hostEnv []).trace =
      [] ++ Op.WriteFile
          ("/sys/fs/cgroup/memory/fdocker/" ++ "0a1b2c3d4e5f" ++ "/memory.limit_in_bytes")
          "536870912" 0o644 ::
        Op.WriteFile
          ("/sys/fs/cgroup/memory/fdocker/" ++ "0a1b2c3d4e5f" ++ "/memory.memsw.limit_in_bytes")
          "805306368" 0o644 :: rest :=
  (ConfigureCGroups_memory hostEnv [] "0a1b2c3d4e5f" 512 256 (-1) (Float64.finite (-1))
    "" "" "" "" (by decide) (by decide) (by decide)).2 rfl

/-- C1, counterexample: a memory cap of `0` is not below zero, yet
`ConfigureCGroups` with `mem = 0` and `swap = 0` writes nothing, on a host
where every write would succeed. -/
theorem ConfigureCGroups_mem_zero :
    ConfigureCGroups "0a1b2c3d4e5f" 0 0 (-1) (Float64.finite (-1)) "" "" "" "" hostEnv [] =
      Result.done () [] ∧
    ¬ ∃ rest, (ConfigureCGroups "0a1b2c3d4e5f" 0 0 (-1) (Float64.finite (-1)) "" "" "" ""
        hostEnv []).trace =
      [] ++ Op.WriteFile
          ("/sys/fs/cgroup/memory/fdocker/" ++ "0a1b2c3d4e5f" ++ "/memory.limit_in_bytes")
          (Itoa (0 * 1048576)) 0o644 :: rest := by
  have hrun : ConfigureCGroups "0a1b2c3d4e5f" 0 0 (-1) (Float64.finite (-1)) "" "" "" ""
      hostEnv [] = Result.done () [] := by
    norm_num [ConfigureCGroups, bind_run, pure_run, Float64.gt]
  refine ⟨hrun, ?_⟩
  rw [hrun]
  simp [Result.trace]

/-- C2: a limit passed at its unset value is not written.  With `l` the
operations `ConfigureCGroups` performs: `mem < 0` leaves no write to
`memory.limit_in_bytes` or `memory.memsw.limit_in_bytes` in `l`, `swap < 0` none
to `memory.memsw.limit_in_bytes`, `pids ≤ 0` none to `pids.max`, `cpus ≤ 0` none
to `cpu.cfs_period_us` or `cpu.cfs_quota_us`, an empty throttle string none to
its `blkio.throttle` file; and with every limit unset the call returns without
having performed any operation. -/
theorem ConfigureCGroups_unset (env : Env) (h : List Op) (containerID : String)
    (mem swap pids : Int) (cpus : Float64) (read_bps read_iops write_bps write_iops : String) :
    ∃ l, (ConfigureCGroups containerID mem swap pids cpus read_bps read_iops write_bps
        write_iops env h).trace = h ++ l ∧
      (mem < 0 → ∀ data perm,
        Op.WriteFile ("/sys/fs/cgroup/memory/fdocker/" ++ containerID ++
          "/memory.limit_in_bytes") data perm ∉ l ∧
        Op.WriteFile ("/sys/fs/cgroup/memory/fdocker/" ++ containerID ++
          "/memory.memsw.limit_in_bytes") data perm ∉ l) ∧
      (swap < 0 → ∀ data perm,
        Op.WriteFile ("/sys/fs/cgroup/memory/fdocker/" ++ containerID ++
          "/memory.memsw.limit_in_bytes") data perm ∉ l) ∧
      (pids ≤ 0 → ∀ data perm,
        Op.WriteFile ("/sys/fs/cgroup/pids/fdocker/" ++ containerID ++ "/pids.max")
          data perm ∉ l) ∧
      (cpus.le (Float64.finite 0) = true → ∀ data perm,
        Op.WriteFile ("/sys/fs/cgroup/cpu/fdocker/" ++ containerID ++ "/cpu.cfs_period_us")
          data perm ∉ l ∧
        Op.WriteFile ("/sys/fs/cgroup/cpu/fdocker/" ++ containerID ++ "/cpu.cfs_quota_us")
          data perm ∉ l) ∧
      (read_bps = "" → ∀ data perm,
        Op.WriteFile ("/sys/fs/cgroup/blkio/fdocker/" ++ containerID ++
          "/blkio.throttle.read_bps_device") data perm ∉ l) ∧
      (read_iops = "" → ∀ data perm,
        Op.WriteFile ("/sys/fs/cgroup/blkio/fdocker/" ++ containerID ++
          "/blkio.throttle.read_iops_device") data perm ∉ l) ∧
      (write_bps = "" → ∀ data perm,
        Op.WriteFile ("/sys/fs/cgroup/blkio/fdocker/" ++ containerID ++
          "/blkio.throttle.write_bps_device") data perm ∉ l) ∧
      (write_iops = "" → ∀ data perm,
        Op.WriteFile ("/sys/fs/cgroup/blkio/fdocker/" ++ containerID ++
          "/blkio.throttle.write_iops_device") data perm ∉ l) ∧
      (mem < 0 → swap < 0 → pids ≤ 0 → cpus.le (Float64.finite 0) = true → read_bps = "" →
        read_iops = "" → write_bps = "" → write_iops = "" →
        ConfigureCGroups containerID mem swap pids cpus read_bps read_iops write_bps
          write_iops env h = Result.done () h) := by
  obtain ⟨l, hl, hS⟩ := ConfigureCGroups_emits env containerID mem swap pids cpus read_bps
    read_iops write_bps write_iops h
  have hcpu : cpus.le (Float64.finite 0) = true → cpus.gt (Float64.finite 0) = false := by
    intro hle
    cases cpus <;> simp_all [Float64.le, Float64.gt]
  have hmem : ∀ op ∈ l, op ∈ ConfigureCGroups.ops env containerID mem swap pids cpus
      read_bps read_iops write_bps write_iops := hS
  clear hS
  refine ⟨l, hl, ?_, ?_, ?_, ?_, ?_, ?_, ?_, ?_, ?_⟩
  · intro hm data perm
    have hm2 : ¬ mem > 0 := by omega
    constructor <;> intro hin <;> have t := hmem _ hin <;> clear hmem hl hin <;>
      unfold ConfigureCGroups.ops setMemoryLimit.ops setCpuLimit.ops throttle.ops at t <;>
      simp only [List.mem_append] at t <;>
      rcases t with (((((t | t) | t) | t) | t) | t) | t <;> split_ifs at t <;>
      simp_all [String.ext_iff]
  · intro hs data perm hin
    have hs2 : ¬ 0 ≤ swap := by omega
    have t := hmem _ hin
    clear hmem hl hin
    unfold ConfigureCGroups.ops setMemoryLimit.ops setCpuLimit.ops throttle.ops at t
    simp only [List.mem_append] at t
    rcases t with (((((t | t) | t) | t) | t) | t) | t <;> split_ifs at t <;>
      simp_all [String.ext_iff]
  · intro hp data perm hin
    have hp2 : ¬ pids > 0 := by omega
    have t := hmem _ hin
    clear hmem hl hin
    unfold ConfigureCGroups.ops setMemoryLimit.ops setCpuLimit.ops throttle.ops at t
    simp only [List.mem_append] at t
    rcases t with (((((t | t) | t) | t) | t) | t) | t <;> split_ifs at t <;>
      simp_all [String.ext_iff]
  · intro hc data perm
    have hc2 := hcpu hc
    constructor <;> intro hin <;> have t := hmem _ hin <;> clear hmem hl hin hcpu <;>
      unfold ConfigureCGroups.ops setMemoryLimit.ops setCpuLimit.ops throttle.ops at t <;>
      simp only [List.mem_append] at t <;>
      rcases t with (((((t | t) | t) | t) | t) | t) | t <;> split_ifs at t <;>
      simp_all [String.ext_iff]
  · intro hr data perm hin
    have t := hmem _ hin
    clear hmem hl hin
    unfold ConfigureCGroups.ops setMemoryLimit.ops setCpuLimit.ops throttle.ops at t
    simp only [List.mem_append] at t
    rcases t with (((((t | t) | t) | t) | t) | t) | t <;> split_ifs at t <;>
      simp_all [String.ext_iff]
  · intro hr data perm hin
    have t := hmem _ hin
    clear hmem hl hin
    unfold ConfigureCGroups.ops setMemoryLimit.ops setCpuLimit.ops throttle.ops at t
    simp only [List.mem_append] at t
    rcases t with (((((t | t) | t) | t) | t) | t) | t <;> split_ifs at t <;>
      simp_all [String.ext_iff]
  · intro hr data perm hin
    have t := hmem _ hin
    clear hmem hl hin
    unfold ConfigureCGroups.ops setMemoryLimit.ops setCpuLimit.ops throttle.ops at t
    simp only [List.mem_append] at t
    rcases t with (((((t | t) | t) | t) | t) | t) | t <;> split_ifs at t <;>
      simp_all [String.ext_iff]
  · intro hr data perm hin
    have t := hmem _ hin
    clear hmem hl hin
    unfold ConfigureCGroups.ops setMemoryLimit.ops setCpuLimit.ops throttle.ops at t
    simp only [List.mem_append] at t
    rcases t with (((((t | t) | t) | t) | t) | t) | t <;> split_ifs at t <;>
      simp_all [String.ext_iff]
  · intro hm _ hp hc hrb hri hwb hwi
    have hm2 : ¬ mem > 0 := by omega
    have hp2 : ¬ pids > 0 := by omega
    simp [ConfigureCGroups, bind_run, pure_run, hm2, hp2, hcpu hc, hrb, hri, hwb, hwi]

/-- C2, witness: with every limit at its unset value and a world in which
every write would fail, nothing is performed. -/
theorem ConfigureCGroups_unset_witness :
    ConfigureCGroups "0a1b2c3d4e5f" (-1) (-1) (-1) (Float64.finite (-1)) "" "" "" ""
      brokenEnv [] = Result.done () [] := by
  obtain ⟨l, _, _, _, _, _, _, _, _, _, hall⟩ :=
    ConfigureCGroups_unset brokenEnv [] "0a1b2c3d4e5f" (-1) (-1) (-1) (Float64.finite (-1))
      "" "" "" ""
  exact hall (by decide) (by decide) (by decide) (by norm_num [Float64.le]) rfl rfl rfl rfl

theorem Float64.ofInt_of_lt (n : Int) (hn : |n| < 2 ^ 53) :
    Float64.ofInt n = Float64.finite (n : ℚ) := by
  have hr := float64Round_dyadic n 0 hn (by norm_num) (by norm_num)
  simpa [Float64.ofInt] using hr

theorem truncRat_intCast (n : Int) : truncRat (n : ℚ) = n := by
  unfold truncRat
  split <;> simp

/-- When a million times the core count is a whole number below `2 ^ 53`, the
quota computed in `float64` and converted to `int` is that number. -/
theorem quota_of_whole (outOfRange : Int) (c : ℚ) (n : Int) (hn : (n : ℚ) = 1000000 * c)
    (hlt : |n| < 2 ^ 53) :
    Float64.toInt outOfRange (Float64.mul (Float64.finite 1000000) (Float64.finite c)) = n := by
  have hr := float64Round_dyadic n 0 hlt (by norm_num) (by norm_num)
  simp only [zpow_zero, mul_one] at hr
  have hb := abs_lt.mp hlt
  simp only [Float64.mul, ← hn, hr, Float64.toInt, truncRat_intCast]
  rw [if_pos ⟨by omega, by omega⟩]

/-- What `setCpuLimit` does for a core count not greater than the host's, by
the answers to its two writes. -/
theorem setCpuLimit_run (env : Env) (h : List Op) (containerID : String) (limit : Float64)
    (hle : limit.gt (Float64.ofInt env.numCPU) = false) :
    setCpuLimit containerID limit env h =
      match env.respond h (Op.WriteFile
        ("/sys/fs/cgroup/cpu/fdocker/" ++ containerID ++ "/cpu.cfs_period_us")
        "1000000" 0o644) with
      | some e => Result.exit ("Unable to write CFS period" ++ ": " ++ e)
          (h ++ [Op.WriteFile
            ("/sys/fs/cgroup/cpu/fdocker/" ++ containerID ++ "/cpu.cfs_period_us")
            "1000000" 0o644])
      | none =>
        match env.respond (h ++ [Op.WriteFile
            ("/sys/fs/cgroup/cpu/fdocker/" ++ containerID ++ "/cpu.cfs_period_us")
            "1000000" 0o644])
          (Op.WriteFile ("/sys/fs/cgroup/cpu/fdocker/" ++ containerID ++ "/cpu.cfs_quota_us")
            (Itoa (Float64.toInt env.intOutOfRange
              (Float64.mul (Float64.finite 1000000) limit))) 0o644) with
        | some e => Result.exit ("Unable to write CFS period" ++ ": " ++ e)
            (h ++ [Op.WriteFile
              ("/sys/fs/cgroup/cpu/fdocker/" ++ containerID ++ "/cpu.cfs_period_us")
              "1000000" 0o644,
              Op.WriteFile ("/sys/fs/cgroup/cpu/fdocker/" ++ containerID ++ "/cpu.cfs_quota_us")
              (Itoa (Float64.toInt env.intOutOfRange
                (Float64.mul (Float64.finite 1000000) limit))) 0o644])
        | none => Result.done ()
            (h ++ [Op.WriteFile
              ("/sys/fs/cgroup/cpu/fdocker/" ++ containerID ++ "/cpu.cfs_period_us")
              "1000000" 0o644,
              Op.WriteFile ("/sys/fs/cgroup/cpu/fdocker/" ++ containerID ++ "/cpu.cfs_quota_us")
              (Itoa (Float64.toInt env.intOutOfRange
                (Float64.mul (Float64.finite 1000000) limit))) 0o644]) := by
  have hI : Itoa 1000000 = "1000000" := by decide
  simp only [setCpuLimit, bind_run, getEnv_run, call_run, hle, hI, Bool.false_eq_true,
    if_false]
  cases h1 : env.respond h (Op.WriteFile
      ("/sys/fs/cgroup/cpu/fdocker/" ++ containerID ++ "/cpu.cfs_period_us")
      "1000000" 0o644) with
  | some e => simp [MustWithMsg_some, fatal_run]
  | none =>
      simp only [MustWithMsg_none, pure_run]
      cases h2 : env.respond (h ++ [Op.WriteFile
            ("/sys/fs/cgroup/cpu/fdocker/" ++ containerID ++ "/cpu.cfs_period_us")
            "1000000" 0o644])
          (Op.WriteFile ("/sys/fs/cgroup/cpu/fdocker/" ++ containerID ++ "/cpu.cfs_quota_us")
            (Itoa (Float64.toInt env.intOutOfRange
              (Float64.mul (Float64.finite 1000000) limit))) 0o644) with
      | some e => simp [MustWithMsg_some, fatal_run]
      | none => simp [MustWithMsg_none, pure_run]

/-- C4 (as amended): for a core count `c > 0` that is not greater than the
host's core count, `setCpuLimit` first writes `1000000` to `cpu.cfs_period_us`
and, when that write succeeds, next writes to `cpu.cfs_quota_us` the decimal
text of `int(1000000 * c)`: the `float64` product with its fraction
discarded.  Whenever `1000000 * c` is a whole number below `2 ^ 53`, that
is the decimal text of `1000000 * c`; for `c = 0.5` it is `500000`. -/
theorem setCpuLimit_valid (env : Env) (h : List Op) (containerID : String) (c : ℚ)
    (hpos : 0 < c) (hle : (Float64.finite c).gt (Float64.ofInt env.numCPU) = false) :
    (∃ rest, (setCpuLimit containerID (Float64.finite c) env h).trace =
      h ++ Op.WriteFile ("/sys/fs/cgroup/cpu/fdocker/" ++ containerID ++ "/cpu.cfs_period_us")
        "1000000" 0o644 :: rest) ∧
    (env.respond h (Op.WriteFile
        ("/sys/fs/cgroup/cpu/fdocker/" ++ containerID ++ "/cpu.cfs_period_us")
        "1000000" 0o644) = none →
      (setCpuLimit containerID (Float64.finite c) env h).trace =
        h ++ [Op.WriteFile
          ("/sys/fs/cgroup/cpu/fdocker/" ++ containerID ++ "/cpu.cfs_period_us")
          "1000000" 0o644,
          Op.WriteFile ("/sys/fs/cgroup/cpu/fdocker/" ++ containerID ++ "/cpu.cfs_quota_us")
          (Itoa (Float64.toInt env.intOutOfRange
            (Float64.mul (Float64.finite 1000000) (Float64.finite c)))) 0o644]) ∧
    (∀ n : Int, (n : ℚ) = 1000000 * c → n < 2 ^ 53 →
      Itoa (Float64.toInt env.intOutOfRange
        (Float64.mul (Float64.finite 1000000) (Float64.finite c))) = Itoa n) ∧
    (c = 1 / 2 →
      Itoa (Float64.toInt env.intOutOfRange
        (Float64.mul (Float64.finite 1000000) (Float64.finite c))) = "500000") := by
  have hrun := setCpuLimit_run env h containerID (Float64.finite c) hle
  have hwhole : ∀ n : Int, (n : ℚ) = 1000000 * c → n < 2 ^ 53 →
      Float64.toInt env.intOutOfRange
        (Float64.mul (Float64.finite 1000000) (Float64.finite c)) = n := by
    intro n hn hlt
    have h0 : (0 : ℚ) < (n : ℚ) := by rw [hn]; positivity
    have h0n : 0 < n := by exact_mod_cast h0
    exact quota_of_whole _ c n hn (by rw [abs_of_pos h0n]; exact hlt)
  refine ⟨?_, ?_, fun n hn hlt => by rw [hwhole n hn hlt], ?_⟩
  · rw [hrun]
    cases env.respond h (Op.WriteFile
        ("/sys/fs/cgroup/cpu/fdocker/" ++ containerID ++ "/cpu.cfs_period_us")
        "1000000" 0o644) with
    | some e => exact ⟨[], by simp [Result.trace]⟩
    | none =>
        cases env.respond (h ++ [Op.WriteFile
            ("/sys/fs/cgroup/cpu/fdocker/" ++ containerID ++ "/cpu.cfs_period_us")
            "1000000" 0o644])
          (Op.WriteFile ("/sys/fs/cgroup/cpu/fdocker/" ++ containerID ++ "/cpu.cfs_quota_us")
            (Itoa (Float64.toInt env.intOutOfRange
              (Float64.mul (Float64.finite 1000000) (Float64.finite c)))) 0o644) with
        | some e => exact ⟨_, by simp [Result.trace]; rfl⟩
        | none => exact ⟨_, by simp [Result.trace]; rfl⟩
  · intro h1
    rw [hrun, h1]
    cases env.respond (h ++ [Op.WriteFile
        ("/sys/fs/cgroup/cpu/fdocker/" ++ containerID ++ "/cpu.cfs_period_us")
        "1000000" 0o644])
      (Op.WriteFile ("/sys/fs/cgroup/cpu/fdocker/" ++ containerID ++ "/cpu.cfs_quota_us")
        (Itoa (Float64.toInt env.intOutOfRange
          (Float64.mul (Float64.finite 1000000) (Float64.finite c)))) 0o644) with
    | some e => simp [Result.trace]
    | none => simp [Result.trace]
  · intro hc
    rw [hwhole 500000 (by rw [hc]; norm_num) (by norm_num)]
    decide

theorem hostEnv_not_gt (c : ℚ) (hc : c ≤ 4) :
    (Float64.finite c).gt (Float64.ofInt hostEnv.numCPU) = false := by
  rw [Float64.ofInt_of_lt _ (by decide)]
  simp [Float64.gt, hostEnv, hc]

/-- C4, witness: half a core on a host with four cores. -/
theorem setCpuLimit_valid_witness :
    (setCpuLimit "0a1b2c3d4e5f" (Float64.finite (1 / 2)) hostEnv []).trace =
      [] ++ [Op.WriteFile
          ("/sys/fs/cgroup/cpu/fdocker/" ++ "0a1b2c3d4e5f" ++ "/cpu.cfs_period_us")
          "1000000" 0o644,
        Op.WriteFile ("/sys/fs/cgroup/cpu/fdocker/" ++ "0a1b2c3d4e5f" ++ "/cpu.cfs_quota_us")
          "500000" 0o644] := by
  obtain ⟨_, h2, _, h4⟩ := setCpuLimit_valid hostEnv [] "0a1b2c3d4e5f" (1 / 2) (by norm_num)
    (hostEnv_not_gt _ (by norm_num))
  have h5 := h2 rfl
  rw [h4 rfl] at h5
  exact h5

theorem quota_small : Float64.toInt hostEnv.intOutOfRange
    (Float64.mul (Float64.finite 1000000) (Float64.finite (1 / 1048576))) = 0 := by
  have hq : (1000000 : ℚ) * (1 / 1048576) = ((15625 : ℤ) : ℚ) * (2 : ℚ) ^ (-14 : ℤ) := by
    norm_num
  have hr := float64Round_dyadic 15625 (-14) (by norm_num) (by norm_num) (by norm_num)
  have hf : truncRat (((15625 : ℤ) : ℚ) * (2 : ℚ) ^ (-14 : ℤ)) = 0 := by
    unfold truncRat
    rw [if_pos (by positivity), Int.floor_eq_iff]
    norm_num
  simp only [Float64.mul, hq, hr, Float64.toInt, hf]
  norm_num

/-- C4, counterexample: for the core count `2 ^ (-20)`, on a host with four
cores where every write succeeds, the quota written is `0`, while
`1000000 * c` is `0.95367431640625`, not a whole number. -/
theorem setCpuLimit_fraction :
    setCpuLimit "0a1b2c3d4e5f" (Float64.finite (1 / 1048576)) hostEnv [] =
      Result.done () [Op.WriteFile
          ("/sys/fs/cgroup/cpu/fdocker/" ++ "0a1b2c3d4e5f" ++ "/cpu.cfs_period_us")
          "1000000" 0o644,
        Op.WriteFile ("/sys/fs/cgroup/cpu/fdocker/" ++ "0a1b2c3d4e5f" ++ "/cpu.cfs_quota_us")
          "0" 0o644] ∧
    (1000000 : ℚ) * (1 / 1048576) = 15625 / 16384 ∧
    ¬ ∃ n : Int, (n : ℚ) = 1000000 * (1 / 1048576) := by
  refine ⟨?_, by norm_num, ?_⟩
  · rw [setCpuLimit_run _ _ _ _ (hostEnv_not_gt _ (by norm_num)), quota_small]
    rfl
  · rintro ⟨n, hn⟩
    have h1 : (n : ℚ) * 16384 = 15625 := by rw [hn]; norm_num
    have h2 : n * 16384 = 15625 := by exact_mod_cast h1
    omega

/-- C3, witness: eight cores requested on a host with four, in a world where
every write would fail. -/
theorem setCpuLimit_beyond_host_witness :
    setCpuLimit "0a1b2c3d4e5f" (Float64.finite 8) brokenEnv [] = Result.done ()
      ([] ++ [Op.Print
        "Ignoring attempt to set CPU quota to great than number of available CPUs"]) :=
  (setCpuLimit_beyond_host brokenEnv [] "0a1b2c3d4e5f").1 (Float64.finite 8)
    (((setCpuLimit_beyond_host brokenEnv [] "0a1b2c3d4e5f").2 8 (by decide)).mpr
      (by norm_num [brokenEnv, hostEnv]))

/-! ## The orchestrator -/

theorem fatalIf_trace (err : Option String) (msg : String → String) (env : Env)
    (h : List Op) : (fatalIf err msg env h).trace = h := by
  cases err <;> rfl

theorem mountOverlayFileSystem_loop_run (env : Env) (imageBasePath : String)
    (layers : List String) (hlen : ∀ layer ∈ layers, 12 ≤ layer.length)
    (srcLayers : List String) (h : List Op) :
    mountOverlayFileSystem.loop imageBasePath layers srcLayers env h =
      Result.done ((layers.map
        (fun layer => imageBasePath ++ "/" ++ layer.take 12 ++ "/fs")).reverse ++ srcLayers) h := by
  induction layers generalizing srcLayers with
  | nil => simp [mountOverlayFileSystem.loop, pure_run]
  | cons layer rest ih =>
      have h1 : ¬ layer.length < 12 := by
        have := hlen layer (List.mem_cons_self _ _)
        omega
      rw [mountOverlayFileSystem.loop, if_neg h1,
        ih (fun l hl => hlen l (List.mem_cons_of_mem _ hl))]
      simp

theorem parseFlags_run (env : Env) (h : List Op) (hargs : 2 ≤ env.osArgs.length)
    (hpos : 2 ≤ (env.flagParse (env.osArgs.drop 2) defaultFlags).1.args.length) :
    parseFlags env h = Result.done
      { mem := (env.flagParse (env.osArgs.drop 2) defaultFlags).1.mem
        swap := (env.flagParse (env.osArgs.drop 2) defaultFlags).1.swap
        pids := (env.flagParse (env.osArgs.drop 2) defaultFlags).1.pids
        cpus := (env.flagParse (env.osArgs.drop 2) defaultFlags).1.cpus
        read_bps := (env.flagParse (env.osArgs.drop 2) defaultFlags).1.read_bps
        read_iops := (env.flagParse (env.osArgs.drop 2) defaultFlags).1.read_iops
        write_bps := (env.flagParse (env.osArgs.drop 2) defaultFlags).1.write_bps
        write_iops := (env.flagParse (env.osArgs.drop 2) defaultFlags).1.write_iops
        imageName := (env.flagParse (env.osArgs.drop 2) defaultFlags).1.args.headD ""
        commands := (env.flagParse (env.osArgs.drop 2) defaultFlags).1.args.drop 1 }
      (h ++ match (env.flagParse (env.osArgs.drop 2) defaultFlags).2 with
        | some err => [Op.Print ("Error parsing:  " ++ err ++ "\n")]
        | none => []) := by
  have h1 : ¬ env.osArgs.length < 2 := by omega
  have h2 : ¬ (env.flagParse (env.osArgs.drop 2) defaultFlags).1.args.length < 2 := by omega
  simp only [parseFlags, bind_run, getEnv_run, if_neg h1, if_neg h2]
  cases (env.flagParse (env.osArgs.drop 2) defaultFlags).2 with
  | some err => simp [say_run, pure_run]
  | none => simp [pure_run]

/-- C5: for a manifest whose layer names are at least 12 long,
`mountOverlayFileSystem` mounts the overlay with the option string `lowerdir=`,
the paths `<imageBase>/<first 12 of the layer>/fs` in the reverse of manifest
order joined by `:`, then `,upperdir=<home>/upperdir,workdir=<home>/workdir`.
For the layers `[a, b, c]` the lowerdir lists the path of `c`, then `b`,
then `a`. -/
theorem mountOverlayFileSystem_lowerdir (env : Env) (h : List Op)
    (containerID imageShaHex : String)
    (hdies : env.dies h (Op.ParseManifest (env.GetManifestPathForImage imageShaHex)) = false)
    (hlen : ∀ layer ∈ env.manifestLayers h (env.GetManifestPathForImage imageShaHex),
      12 ≤ layer.length) :
    (mountOverlayFileSystem containerID imageShaHex env h).trace =
      h ++ [Op.ParseManifest (env.GetManifestPathForImage imageShaHex),
        Op.Mount "/dev/sda5" (env.GetContainerFSHome containerID ++ "/mnt") "overlay" 0
          ("lowerdir=" ++
            String.intercalate ":"
              ((env.manifestLayers h (env.GetManifestPathForImage imageShaHex)).map
                (fun layer => env.GetBasePathForImage imageShaHex ++ "/" ++ layer.take 12 ++
                  "/fs")).reverse ++
            ",upperdir=" ++ env.GetContainerFSHome containerID ++ "/upperdir,workdir=" ++
            env.GetContainerFSHome containerID ++ "/workdir")] ∧
    (∀ a b c : String,
      env.manifestLayers h (env.GetManifestPathForImage imageShaHex) = [a, b, c] →
      String.intercalate ":"
        ((env.manifestLayers h (env.GetManifestPathForImage imageShaHex)).map
          (fun layer => env.GetBasePathForImage imageShaHex ++ "/" ++ layer.take 12 ++
            "/fs")).reverse =
        (env.GetBasePathForImage imageShaHex ++ "/" ++ c.take 12 ++ "/fs") ++ ":" ++
        (env.GetBasePathForImage imageShaHex ++ "/" ++ b.take 12 ++ "/fs") ++ ":" ++
        (env.GetBasePathForImage imageShaHex ++ "/" ++ a.take 12 ++ "/fs")) := by
  constructor
  · have hloop := mountOverlayFileSystem_loop_run env (env.GetBasePathForImage imageShaHex)
      _ hlen []
    simp only [mountOverlayFileSystem, bind_run, getEnv_run, getTrace_run, callee, hdies,
      hloop, call_run, List.append_nil, fatalIf_trace]
    simp [fatalIf_trace]
  · intro a b c habc
    rw [habc]
    simp [String.intercalate, String.intercalate.go]

set_option maxRecDepth 100000 in
theorem fmt02x_eq : ∀ b : Byte, (fmt02x b).data = [hexDigit (b.val / 16), hexDigit (b.val % 16)] := by
  decide

theorem hexDigit_inj : ∀ m : Fin 16, ∀ n : Fin 16, hexDigit m.val = hexDigit n.val → m = n := by
  decide

theorem hexDigit_mem : ∀ m : Fin 16, hexDigit m.val ∈ "0123456789abcdef".data := by
  decide

theorem byte_of_digits (a b : Byte) (h1 : hexDigit (a.val / 16) = hexDigit (b.val / 16))
    (h2 : hexDigit (a.val % 16) = hexDigit (b.val % 16)) : a = b := by
  have ha := a.isLt
  have hb := b.isLt
  have e1 := hexDigit_inj ⟨a.val / 16, by omega⟩ ⟨b.val / 16, by omega⟩ h1
  have e2 := hexDigit_inj ⟨a.val % 16, by omega⟩ ⟨b.val % 16, by omega⟩ h2
  simp only [Fin.mk.injEq] at e1 e2
  apply Fin.ext
  omega

theorem createContainerID_run (env : Env) (h : List Op) :
    createContainerID env h = Result.done (containerIDAt env h) (h ++ [Op.RandRead 6]) := rfl

theorem createContainerID_data (env : Env) (h : List Op) :
    (containerIDAt env h).data =
    hexEncode [env.randBytes h 0, env.randBytes h 1, env.randBytes h 2, env.randBytes h 3,
      env.randBytes h 4, env.randBytes h 5] := by
  simp [containerIDAt, String.data_append, fmt02x_eq, hexEncode]

/-- C6: `createContainerID` reads six random bytes and returns their two-digit
lowercase hexadecimal encoding in order: a string of exactly twelve characters,
each among `0`-`9` and `a`-`f`.  Two calls that return the same identity were
given the same six bytes. -/
theorem createContainerID_hex (env : Env) (h : List Op) :
    ∃ id, createContainerID env h = Result.done id (h ++ [Op.RandRead 6]) ∧
      id.data = hexEncode [env.randBytes h 0, env.randBytes h 1, env.randBytes h 2,
        env.randBytes h 3, env.randBytes h 4, env.randBytes h 5] ∧
      id.length = 12 ∧
      (∀ ch ∈ id.data, ch ∈ "0123456789abcdef".data) ∧
      (∀ (env2 : Env) (h2 t2 : List Op), createContainerID env2 h2 = Result.done id t2 →
        env2.randBytes h2 = env.randBytes h) := by
  refine ⟨_, createContainerID_run env h, createContainerID_data env h, ?_, ?_, ?_⟩
  · rw [String.length, createContainerID_data]
    rfl
  · intro ch hch
    rw [createContainerID_data] at hch
    simp only [hexEncode, List.mem_cons, List.mem_nil_iff, or_false] at hch
    have hlt : ∀ b : Byte, b.val / 16 < 16 ∧ b.val % 16 < 16 := fun b => by
      have := b.isLt
      omega
    rcases hch with hch | hch | hch | hch | hch | hch | hch | hch | hch | hch | hch | hch <;>
      rw [hch]
    · exact hexDigit_mem ⟨_, (hlt (env.randBytes h 0)).1⟩
    · exact hexDigit_mem ⟨_, (hlt (env.randBytes h 0)).2⟩
    · exact hexDigit_mem ⟨_, (hlt (env.randBytes h 1)).1⟩
    · exact hexDigit_mem ⟨_, (hlt (env.randBytes h 1)).2⟩
    · exact hexDigit_mem ⟨_, (hlt (env.randBytes h 2)).1⟩
    · exact hexDigit_mem ⟨_, (hlt (env.randBytes h 2)).2⟩
    · exact hexDigit_mem ⟨_, (hlt (env.randBytes h 3)).1⟩
    · exact hexDigit_mem ⟨_, (hlt (env.randBytes h 3)).2⟩
    · exact hexDigit_mem ⟨_, (hlt (env.randBytes h 4)).1⟩
    · exact hexDigit_mem ⟨_, (hlt (env.randBytes h 4)).2⟩
    · exact hexDigit_mem ⟨_, (hlt (env.randBytes h 5)).1⟩
    · exact hexDigit_mem ⟨_, (hlt (env.randBytes h 5)).2⟩
  · intro env2 h2 t2 hrun
    rw [createContainerID_run] at hrun
    have hid := congrArg String.data (Result.done.inj hrun).1
    rw [createContainerID_data, createContainerID_data] at hid
    simp only [hexEncode, List.cons.injEq, and_true] at hid
    obtain ⟨a0, a1, b0, b1, c0, c1, d0, d1, e0, e1, f0, f1⟩ := hid
    funext i
    fin_cases i
    · exact byte_of_digits _ _ a0 a1
    · exact byte_of_digits _ _ b0 b1
    · exact byte_of_digits _ _ c0 c1
    · exact byte_of_digits _ _ d0 d1
    · exact byte_of_digits _ _ e0 e1
    · exact byte_of_digits _ _ f0 f1

theorem roundHalfEven_of_lt (q : ℚ) (z : Int) (h1 : (z : ℚ) ≤ q) (h2 : q < z + 1 / 2) :
    roundHalfEven q = z := by
  have hf : ⌊q⌋ = z := Int.floor_eq_iff.mpr ⟨h1, by linarith⟩
  have hfr : Int.fract q < 1 / 2 := by
    rw [Int.fract, hf]
    linarith
  unfold roundHalfEven
  rw [if_pos hfr, hf]

theorem FormatFloat_f1_17_32 : FormatFloat_f1 (Float64.finite (17 / 32)) = "0.5" := by
  have ht : roundHalfEven (|(17 / 32 : ℚ)| * 10) = 5 :=
    roundHalfEven_of_lt _ 5 (by norm_num [abs_of_pos]) (by norm_num [abs_of_pos])
  simp only [FormatFloat_f1, ht]
  norm_num
  decide

theorem FormatFloat_f1_1_2 : FormatFloat_f1 (Float64.finite (1 / 2)) = "0.5" := by
  have ht : roundHalfEven (|(1 / 2 : ℚ)| * 10) = 5 :=
    roundHalfEven_of_lt _ 5 (by norm_num [abs_of_pos]) (by norm_num [abs_of_pos])
  simp only [FormatFloat_f1, ht]
  norm_num
  decide

theorem FormatFloat_f1_1_32 : FormatFloat_f1 (Float64.finite (1 / 32)) = "0.0" := by
  have ht : roundHalfEven (|(1 / 32 : ℚ)| * 10) = 0 :=
    roundHalfEven_of_lt _ 0 (by norm_num [abs_of_pos]) (by norm_num [abs_of_pos])
  simp only [FormatFloat_f1, ht]
  norm_num
  decide

/-- C7, the code at the failing input: the core counts `17/32 = 0.53125` and
`1/2`, both values of `float64`, are forwarded to the child-mode stage as the
same flag `--cpus=0.5`, so that the two requests start the same stages; and
the core count `1/32 = 0.03125` is forwarded as `--cpus=0.0`, which reads back
as the unset value. -/
theorem childOpts_cpus_rounded (imageShaHex : String) :
    float64Round (17 / 32) = Float64.finite (17 / 32) ∧
    float64Round (1 / 32) = Float64.finite (1 / 32) ∧
    childOpts (-1) (-1) (-1) (Float64.finite (17 / 32)) "" "" "" "" imageShaHex =
      ["--cpus=0.5", "--img=" ++ imageShaHex] ∧
    childOpts (-1) (-1) (-1) (Float64.finite (1 / 2)) "" "" "" "" imageShaHex =
      ["--cpus=0.5", "--img=" ++ imageShaHex] ∧
    childOpts (-1) (-1) (-1) (Float64.finite (1 / 32)) "" "" "" "" imageShaHex =
      ["--cpus=0.0", "--img=" ++ imageShaHex] ∧
    (∀ (env : Env) (h : List Op) (containerID : String) (cmdArgs : List String),
      prepareAndExecuteContainer (-1) (-1) (-1) (Float64.finite (17 / 32)) "" "" "" ""
          containerID imageShaHex cmdArgs env h =
        prepareAndExecuteContainer (-1) (-1) (-1) (Float64.finite (1 / 2)) "" "" "" ""
          containerID imageShaHex cmdArgs env h) := by
  have h1 : childOpts (-1) (-1) (-1) (Float64.finite (17 / 32)) "" "" "" "" imageShaHex =
      ["--cpus=0.5", "--img=" ++ imageShaHex] := by
    norm_num [childOpts, Float64.gt, FormatFloat_f1_17_32]
    decide
  have h2 : childOpts (-1) (-1) (-1) (Float64.finite (1 / 2)) "" "" "" "" imageShaHex =
      ["--cpus=0.5", "--img=" ++ imageShaHex] := by
    norm_num [childOpts, Float64.gt, FormatFloat_f1_1_2]
    decide
  refine ⟨?_, ?_, h1, h2, ?_, ?_⟩
  · have hr := float64Round_dyadic 17 (-5) (by norm_num) (by norm_num) (by norm_num)
    norm_num at hr
    exact hr
  · have hr := float64Round_dyadic 1 (-5) (by norm_num) (by norm_num) (by norm_num)
    norm_num at hr
    exact hr
  · norm_num [childOpts, Float64.gt, FormatFloat_f1_1_32]
    decide
  · intro env h containerID cmdArgs
    simp only [prepareAndExecuteContainer, childArgs, h1, h2]

theorem parseFlags_args (env : Env) (h : List Op) (hargs : 2 ≤ env.osArgs.length)
    (hpos : 2 ≤ (env.flagParse (env.osArgs.drop 2) defaultFlags).1.args.length) :
    parseFlags env h = Result.done (Exec.args env)
      (h ++ match (env.flagParse (env.osArgs.drop 2) defaultFlags).2 with
        | some err => [Op.Print ("Error parsing:  " ++ err ++ "\n")]
        | none => []) :=
  parseFlags_run env h hargs hpos

/-- C9, counterexample: in a world where `os.RemoveAll` returns an error and
everything else succeeds, the run completes normally; its last operation is
the failed removal of the container directory tree. -/
theorem Exec_removeAll_error_dropped :
    (∀ h path, removeAllFailsEnv.respond h (Op.RemoveAll path) = some "directory not empty") ∧
    (Exec removeAllFailsEnv []).isExit = false ∧
    (Exec removeAllFailsEnv []).trace.getLast? =
      some (Op.RemoveAll "/var/run/fdocker/containers/0a1a2a3a4a5a") :=
  ⟨fun _ _ => rfl, by decide, by decide⟩

set_option maxRecDepth 100000 in
/-- C5, witness: the three layers of the manifest on `hostEnv`, last layer
first. -/
theorem mountOverlayFileSystem_lowerdir_witness :
    (mountOverlayFileSystem "0a1a2a3a4a5a" "a24bb4013296" hostEnv []).trace =
      [] ++ [Op.ParseManifest "/var/lib/fdocker/images/a24bb4013296/manifest.json",
        Op.Mount "/dev/sda5" "/var/run/fdocker/containers/0a1a2a3a4a5a/fs/mnt" "overlay" 0
          "lowerdir=/var/lib/fdocker/images/a24bb4013296/cccccccccccc/fs:/var/lib/fdocker/images/a24bb4013296/aaaaaaaaaaaa/fs:/var/lib/fdocker/images/a24bb4013296/111111111111/fs,upperdir=/var/run/fdocker/containers/0a1a2a3a4a5a/fs/upperdir,workdir=/var/run/fdocker/containers/0a1a2a3a4a5a/fs/workdir"] :=
  (mountOverlayFileSystem_lowerdir hostEnv [] "0a1a2a3a4a5a" "a24bb4013296" rfl
    (by decide)).1

/-- C6, witness: the bytes `0a 1a 2a 3a 4a 5a`; a second call that returns
the same identity was given the same bytes. -/
theorem createContainerID_hex_witness :
    createContainerID hostEnv [] = Result.done "0a1a2a3a4a5a" ([] ++ [Op.RandRead 6]) ∧
    hostEnv.randBytes [Op.RandRead 6] = hostEnv.randBytes [] := by
  obtain ⟨id, hrun, _, _, _, hinj⟩ := createContainerID_hex hostEnv []
  have hid : id = "0a1a2a3a4a5a" := (Result.done.inj (hrun.symm.trans rfl)).1
  subst hid
  exact ⟨hrun, hinj hostEnv [Op.RandRead 6] [Op.RandRead 6, Op.RandRead 6] rfl⟩

/-! ## Operation by operation, up to the first failure -/

section follows

variable {α β : Type} {env : Env}

theorem eq_none_of_isSome_false {o : Option String} (h : o.isSome = false) : o = none := by
  cases o with
  | none => rfl
  | some e => simp at h

theorem Env.passes_append (env : Env) (h l1 l2 : List Op) :
    env.passes h (l1 ++ l2) = (env.passes h l1 && env.passes (h ++ l1) l2) := by
  induction l1 generalizing h with
  | nil => simp [Env.passes]
  | cons op rest ih => simp [Env.passes, ih, Bool.and_assoc]

theorem follows_of_done {p : Prog α} {h : List Op} {a : α}
    (hp : p env h = Result.done a h) : Follows env p h [] a := by
  refine ⟨fun _ => by simpa using hp, ?_⟩
  intro pre op post hsplit
  simp at hsplit

theorem follows_pure (a : α) (h : List Op) : Follows env (pure a : Prog α) h [] a :=
  follows_of_done rfl

/-- One operation, then the rest. -/
theorem follows_cons {p : Prog α} (r : Prog α) {h : List Op} {op : Op} {ops : List Op} {a : α}
    (hstop : env.stops h op = true →
      (p env h).isExit = true ∧ (p env h).trace = h ++ [op])
    (hgo : env.stops h op = false → p env h = r env (h ++ [op]))
    (hrest : Follows env r (h ++ [op]) ops a) : Follows env p h (op :: ops) a := by
  constructor
  · intro hpass
    simp only [Env.passes, Bool.and_eq_true, Bool.not_eq_true'] at hpass
    rw [hgo hpass.1, hrest.1 hpass.2]
    simp
  · intro pre op2 post hsplit hpre hst
    cases pre with
    | nil =>
        simp only [List.nil_append, List.cons.injEq] at hsplit
        obtain ⟨rfl, _⟩ := hsplit
        simpa using hstop (by simpa using hst)
    | cons o pre2 =>
        simp only [List.cons_append, List.cons.injEq] at hsplit
        obtain ⟨rfl, hops⟩ := hsplit
        simp only [Env.passes, Bool.and_eq_true, Bool.not_eq_true'] at hpre
        rw [hgo hpre.1]
        have := hrest.2 pre2 op2 post hops hpre.2 (by simpa using hst)
        simpa using this

theorem follows_bind {m : Prog α} {f : α → Prog β} {h ops1 ops2 : List Op} {a : α} {b : β}
    (hm : Follows env m h ops1 a) (hf : Follows env (f a) (h ++ ops1) ops2 b) :
    Follows env (m >>= f) h (ops1 ++ ops2) b := by
  constructor
  · intro hpass
    rw [Env.passes_append, Bool.and_eq_true] at hpass
    rw [bind_run, hm.1 hpass.1]
    simp only
    rw [hf.1 hpass.2, List.append_assoc]
  · intro pre op post hsplit hpre hst
    rcases List.append_eq_append_iff.mp hsplit with ⟨a2, hpre2, hops2⟩ | ⟨c2, hops1, hc2⟩
    · -- the operation is among the second ones
      subst hpre2
      rw [Env.passes_append, Bool.and_eq_true] at hpre
      rw [bind_run, hm.1 hpre.1]
      simp only
      have := hf.2 a2 op post hops2 hpre.2 (by simpa using hst)
      simpa using this
    · cases c2 with
      | nil =>
          simp only [List.append_nil, List.nil_append] at hops1 hc2
          subst hops1
          rw [bind_run, hm.1 hpre]
          simp only
          have := hf.2 [] op post hc2.symm (by simp [Env.passes]) (by simpa using hst)
          simpa using this
      | cons o c3 =>
          simp only [List.cons_append, List.cons.injEq] at hc2
          obtain ⟨rfl, _⟩ := hc2
          obtain ⟨hex, htr⟩ := hm.2 pre op c3 hops1 hpre hst
          rw [bind_run]
          cases hr : m env h with
          | done v t => rw [hr] at hex; simp [Result.isExit] at hex
          | exit msg t =>
              rw [hr] at htr
              simp only [Result.trace] at htr
              simp [Result.isExit, Result.trace, htr]

theorem follows_bind_done {m : Prog α} {f : α → Prog β} {h ops : List Op} {a : α} {b : β}
    (hm : m env h = Result.done a h) (hf : Follows env (f a) h ops b) :
    Follows env (m >>= f) h ops b := by
  have := follows_bind (follows_of_done hm) (by simpa using hf)
  simpa using this

/-- A program that returns after operations none of which can end the run. -/
theorem follows_of_silent {p : Prog α} {h ops : List Op} {a : α}
    (hp : p env h = Result.done a (h ++ ops))
    (hs : ∀ op ∈ ops, op.handling = Handling.silent) : Follows env p h ops a := by
  refine ⟨fun _ => hp, ?_⟩
  intro pre op post hsplit _ hst
  have hmem : op ∈ ops := by rw [hsplit]; simp
  simp [Env.stops, hs op hmem] at hst

theorem follows_getEnv {f : Env → Prog β} {h ops : List Op} {b : β}
    (hf : Follows env (f env) h ops b) : Follows env (getEnv >>= f) h ops b := hf

theorem follows_getTrace {f : List Op → Prog β} {h ops : List Op} {b : β}
    (hf : Follows env (f h) h ops b) : Follows env (getTrace >>= f) h ops b := hf

theorem follows_say {op : Op} {r : Prog β} {h ops : List Op} {b : β}
    (hk : op.handling = Handling.silent)
    (hr : Follows env r (h ++ [op]) ops b) :
    Follows env (say op >>= fun _ => r) h (op :: ops) b :=
  follows_cons r (fun hs => by simp [Env.stops, hk] at hs) (fun _ => rfl) hr

theorem follows_call_check {op : Op} {chk : Option String → Prog Unit} {r : Prog β}
    {h ops : List Op} {b : β} (hchk : IsCheck chk) (hk : op.handling = Handling.checked)
    (hr : Follows env r (h ++ [op]) ops b) :
    Follows env (call op >>= fun e => chk e >>= fun _ => r) h (op :: ops) b := by
  refine follows_cons r (fun hs => ?_) (fun hs => ?_) hr
  · simp only [Env.stops, hk, Option.isSome_iff_exists] at hs
    obtain ⟨e, he⟩ := hs
    obtain ⟨msg, hmsg⟩ := hchk.2 e
    simp [bind_run, call_run, he, hmsg, fatal_run, Result.isExit, Result.trace]
  · simp only [Env.stops, hk] at hs
    simp [bind_run, call_run, eq_none_of_isSome_false hs, hchk.1, pure_run]

theorem follows_call_check_end {op : Op} {chk : Option String → Prog Unit}
    {h : List Op} (hchk : IsCheck chk) (hk : op.handling = Handling.checked) :
    Follows env (call op >>= fun e => chk e) h [op] () := by
  refine follows_cons (Pure.pure ()) (fun hs => ?_) (fun hs => ?_) (follows_pure _ _)
  · simp only [Env.stops, hk, Option.isSome_iff_exists] at hs
    obtain ⟨e, he⟩ := hs
    obtain ⟨msg, hmsg⟩ := hchk.2 e
    simp [bind_run, call_run, he, hmsg, fatal_run, Result.isExit, Result.trace]
  · simp only [Env.stops, hk] at hs
    simp [bind_run, call_run, eq_none_of_isSome_false hs, hchk.1, pure_run]

theorem follows_call_drop {op : Op} {r : Prog β} {h ops : List Op} {b : β}
    (hk : op.handling = Handling.dropped) (hr : Follows env r (h ++ [op]) ops b) :
    Follows env (call op >>= fun _ => r) h (op :: ops) b :=
  follows_cons r (fun hs => by simp [Env.stops, hk] at hs) (fun _ => rfl) hr

theorem follows_callee_check {op : Op} {chk : Option String → Prog Unit} {r : Prog β}
    {h ops : List Op} {b : β} (hchk : IsCheck chk)
    (hk : op.handling = Handling.calleeChecked)
    (hr : Follows env r (h ++ [op]) ops b) :
    Follows env (callee op >>= fun e => chk e >>= fun _ => r) h (op :: ops) b := by
  refine follows_cons r (fun hs => ?_) (fun hs => ?_) hr
  · simp only [Env.stops, hk, Bool.or_eq_true] at hs
    by_cases hd : env.dies h op = true
    · simp [bind_run, callee, hd, Result.isExit, Result.trace]
    · rcases hs with hs | hs
      · exact absurd hs hd
      · obtain ⟨e, he⟩ := Option.isSome_iff_exists.mp hs
        obtain ⟨msg, hmsg⟩ := hchk.2 e
        simp [bind_run, callee, hd, he, hmsg, fatal_run, Result.isExit, Result.trace]
  · simp only [Env.stops, hk, Bool.or_eq_false_iff] at hs
    simp [bind_run, callee, hs.1, eq_none_of_isSome_false hs.2, hchk.1, pure_run]

theorem follows_callee_check_end {op : Op} {chk : Option String → Prog Unit}
    {h : List Op} (hchk : IsCheck chk) (hk : op.handling = Handling.calleeChecked) :
    Follows env (callee op >>= fun e => chk e) h [op] () := by
  refine follows_cons (Pure.pure ()) (fun hs => ?_) (fun hs => ?_) (follows_pure _ _)
  · simp only [Env.stops, hk, Bool.or_eq_true] at hs
    by_cases hd : env.dies h op = true
    · simp [bind_run, callee, hd, Result.isExit, Result.trace]
    · rcases hs with hs | hs
      · exact absurd hs hd
      · obtain ⟨e, he⟩ := Option.isSome_iff_exists.mp hs
        obtain ⟨msg, hmsg⟩ := hchk.2 e
        simp [bind_run, callee, hd, he, hmsg, fatal_run, Result.isExit, Result.trace]
  · simp only [Env.stops, hk, Bool.or_eq_false_iff] at hs
    simp [bind_run, callee, hs.1, eq_none_of_isSome_false hs.2, hchk.1, pure_run]

theorem follows_callee_drop {op : Op} {r : Prog β} {h ops : List Op} {b : β}
    (hk : op.handling = Handling.calleeDropped) (hr : Follows env r (h ++ [op]) ops b) :
    Follows env (callee op >>= fun _ => r) h (op :: ops) b := by
  refine follows_cons r (fun hs => ?_) (fun hs => ?_) hr
  · simp only [Env.stops, hk] at hs
    simp [bind_run, callee, hs, Result.isExit, Result.trace]
  · simp only [Env.stops, hk] at hs
    simp [bind_run, callee, hs]

theorem follows_congr {p : Prog α} {h ops ops2 : List Op} {a a2 : α}
    (hp : Follows env p h ops a) (hops : ops = ops2) (ha : a = a2) :
    Follows env p h ops2 a2 := by
  subst hops
  subst ha
  exact hp

theorem isCheck_MustWithMsg (msg : String) : IsCheck fun e => MustWithMsg e msg :=
  ⟨rfl, fun _ => ⟨_, rfl⟩⟩

theorem isCheck_Must : IsCheck fun e => Must e := ⟨rfl, fun _ => ⟨_, rfl⟩⟩

theorem isCheck_fatalIf (msg : String → String) : IsCheck fun e => fatalIf e msg :=
  ⟨rfl, fun _ => ⟨_, rfl⟩⟩

end follows

theorem CreateCGroups_loop_follows (env : Env) (dirs : List String) (h : List Op) :
    Follows env (CreateCGroups.loop dirs) h (dirs.foldr (fun dir acc =>
      Op.WriteFile (dir ++ "/notify_on_release") "1" 0o700 ::
      Op.WriteFile (dir ++ "/cgroup.procs") (Itoa env.pid) 0o700 :: acc) []) () := by
  induction dirs generalizing h with
  | nil => exact follows_pure _ _
  | cons dir rest ih =>
      unfold CreateCGroups.loop
      apply follows_getEnv
      apply follows_call_check (isCheck_MustWithMsg _) (by rfl)
      apply follows_call_check (isCheck_MustWithMsg _) (by rfl)
      exact ih _

theorem CreateCGroups_follows (env : Env) (containerID : String) (createCGroupDirs : Bool)
    (h : List Op) :
    Follows env (CreateCGroups containerID createCGroupDirs) h
      (CreateCGroups.ops env containerID createCGroupDirs) () := by
  unfold CreateCGroups CreateCGroups.ops
  apply follows_bind
  · cases createCGroupDirs
    · exact follows_pure _ _
    · exact follows_callee_check_end (isCheck_MustWithMsg _) (by rfl)
  · exact CreateCGroups_loop_follows env _ _

theorem RemoveCGroups_loop_follows (env : Env) (dirs : List String) (h : List Op) :
    Follows env (RemoveCGroups.loop dirs) h (dirs.map Op.Remove) () := by
  induction dirs generalizing h with
  | nil => exact follows_pure _ _
  | cons dir rest ih =>
      unfold RemoveCGroups.loop
      apply follows_call_check (isCheck_MustWithMsg _) (by rfl)
      exact ih _

theorem RemoveCGroups_follows (env : Env) (containerID : String) (h : List Op) :
    Follows env (RemoveCGroups containerID) h (RemoveCGroups.ops containerID) () :=
  RemoveCGroups_loop_follows env _ h

theorem setUpBridge_follows (env : Env) (h : List Op) :
    Follows env setUpBridge h
      (Op.IsFDockerBridgeUp ::
        if env.bridgeUp h then []
        else [Op.Log "Bringing up the fdocker0 bridge...\n", Op.SetupFDockerBridge]) () := by
  unfold setUpBridge
  apply follows_getEnv
  apply follows_getTrace
  apply follows_callee_drop (by rfl)
  cases env.bridgeUp h
  · apply follows_say (by rfl)
    exact follows_callee_check_end (isCheck_fatalIf _) (by rfl)
  · exact follows_pure _ _

theorem createContainerID_follows (env : Env) (h : List Op) :
    Follows env createContainerID h [Op.RandRead 6] (containerIDAt env h) := by
  unfold createContainerID
  apply follows_getEnv
  apply follows_getTrace
  apply follows_say (by rfl)
  exact follows_pure _ _

theorem createContainerDirectories_follows (env : Env) (containerID : String) (h : List Op) :
    Follows env (createContainerDirectories containerID) h
      [Op.EnsureDirs [env.GetContainerFSHome containerID,
        env.pathJoin [env.GetContainerFSHome containerID, "mnt"],
        env.pathJoin [env.GetContainerFSHome containerID, "upperdir"],
        env.pathJoin [env.GetContainerFSHome containerID, "workdir"]]] () := by
  unfold createContainerDirectories
  apply follows_getEnv
  exact follows_callee_check_end (isCheck_fatalIf _) (by rfl)

theorem mountOverlayFileSystem_follows (env : Env) (containerID imageShaHex : String)
    (h : List Op)
    (hlen : ∀ layer ∈ env.manifestLayers h (env.GetManifestPathForImage imageShaHex),
      12 ≤ layer.length) :
    Follows env (mountOverlayFileSystem containerID imageShaHex) h
      [Op.ParseManifest (env.GetManifestPathForImage imageShaHex),
        Op.Mount "/dev/sda5" (env.GetContainerFSHome containerID ++ "/mnt") "overlay" 0
          ("lowerdir=" ++
            String.intercalate ":"
              ((env.manifestLayers h (env.GetManifestPathForImage imageShaHex)).map
                (fun layer => env.GetBasePathForImage imageShaHex ++ "/" ++ layer.take 12 ++
                  "/fs")).reverse ++
            ",upperdir=" ++ env.GetContainerFSHome containerID ++ "/upperdir,workdir=" ++
            env.GetContainerFSHome containerID ++ "/workdir")] () := by
  have hloop := mountOverlayFileSystem_loop_run env (env.GetBasePathForImage imageShaHex)
    _ hlen []
  simp only [List.append_nil] at hloop
  unfold mountOverlayFileSystem
  apply follows_getEnv
  apply follows_getTrace
  apply follows_callee_drop (by rfl)
  apply follows_bind_done (hloop _)
  exact follows_call_check_end (isCheck_fatalIf _) (by rfl)

theorem prepareAndExecuteContainer_follows (env : Env) (args : runArgs)
    (containerID imageShaHex : String) (h : List Op) :
    Follows env (prepareAndExecuteContainer args.mem args.swap args.pids args.cpus
        args.read_bps args.read_iops args.write_bps args.write_iops containerID imageShaHex
        args.commands) h (stageOps args containerID imageShaHex) () := by
  unfold prepareAndExecuteContainer stageOps
  apply follows_call_check isCheck_Must (by rfl)
  apply follows_call_check isCheck_Must (by rfl)
  exact follows_call_check_end isCheck_Must (by rfl)

theorem unmountNetworkNamespace_follows (env : Env) (containerID : String) (h : List Op) :
    Follows env (unmountNetworkNamespace containerID) h
      [Op.UnmountNetworkNamespace containerID] () := by
  unfold unmountNetworkNamespace UnmountNetworkNamespace
  exact follows_call_check_end (isCheck_fatalIf _) (by rfl)

theorem unmountContainerFs_follows (env : Env) (containerID : String) (h : List Op) :
    Follows env (unmountContainerFs containerID) h
      [Op.Unmount (env.ContainersPath ++ "/" ++ containerID ++ "/fs/mnt") 0] () := by
  unfold unmountContainerFs
  apply follows_getEnv
  exact follows_call_check_end (isCheck_fatalIf _) (by rfl)

theorem teardown_follows (env : Env) (containerID : String) (h : List Op) :
    Follows env (initContainer.teardown containerID) h (teardownOps env containerID) () := by
  refine follows_congr (?_ : Follows env _ h
    (Op.Log "Container done.\n" :: ([Op.UnmountNetworkNamespace containerID] ++
      ([Op.Unmount (env.ContainersPath ++ "/" ++ containerID ++ "/fs/mnt") 0] ++
        (RemoveCGroups.ops containerID ++
          [Op.RemoveAll (env.ContainersPath ++ "/" ++ containerID)])))) ())
    (by simp [teardownOps]) rfl
  unfold initContainer.teardown
  apply follows_getEnv
  apply follows_say (by rfl)
  apply follows_bind (unmountNetworkNamespace_follows env containerID _)
  apply follows_bind (unmountContainerFs_follows env containerID _)
  apply follows_bind (RemoveCGroups_follows env containerID _)
  apply follows_call_drop (by rfl)
  exact follows_pure _ _

theorem initContainer_setup_follows (env : Env) (args : runArgs) (h : List Op)
    (hlen : ∀ layer ∈ setupLayers env args h, 12 ≤ layer.length) :
    Follows env (initContainer.setup args) h (setupOps env args h)
      (containerIDAt env h, setupImage env args h) := by
  apply follows_congr
  case hp =>
    unfold initContainer.setup
    apply follows_getEnv
    apply follows_bind (createContainerID_follows env h)
    apply follows_say (by rfl)
    apply follows_getTrace
    apply follows_callee_drop (by rfl)
    dsimp only
    apply follows_say (by rfl)
    apply follows_bind (createContainerDirectories_follows env _ _)
    apply follows_bind (mountOverlayFileSystem_follows env _ _ _
      (by simpa [setupLayers, setupOps.resolve, setupImage] using hlen))
    apply follows_callee_check (isCheck_fatalIf _) (by rfl)
    exact follows_pure _ _
  case hops => simp [setupOps, setupOps.resolve, setupLayers, setupImage]
  case ha => simp [setupImage]

theorem initContainer_follows (env : Env) (args : runArgs) (h : List Op)
    (hlen : ∀ layer ∈ setupLayers env args h, 12 ≤ layer.length) :
    Follows env (initContainer args) h
      (setupOps env args h ++
        (stageOps args (containerIDAt env h) (setupImage env args h) ++
          teardownOps env (containerIDAt env h))) () := by
  unfold initContainer
  apply follows_bind (initContainer_setup_follows env args h hlen)
  apply follows_bind (prepareAndExecuteContainer_follows env args _ _ _)
  exact teardown_follows env _ _

theorem parseFlags_follows (env : Env) (h : List Op) (hargs : 2 ≤ env.osArgs.length)
    (hpos : 2 ≤ (env.flagParse (env.osArgs.drop 2) defaultFlags).1.args.length) :
    Follows env parseFlags h
      (match (env.flagParse (env.osArgs.drop 2) defaultFlags).2 with
        | some err => [Op.Print ("Error parsing:  " ++ err ++ "\n")]
        | none => [])
      (Exec.args env) := by
  apply follows_of_silent (parseFlags_args env h hargs hpos)
  intro op hop
  cases hp : (env.flagParse (env.osArgs.drop 2) defaultFlags).2 with
  | none => rw [hp] at hop; simp at hop
  | some err =>
      rw [hp] at hop
      simp only [List.mem_singleton] at hop
      subst hop
      rfl

theorem Exec_follows (env : Env) (hargs : 2 ≤ env.osArgs.length)
    (hpos : 2 ≤ (env.flagParse (env.osArgs.drop 2) defaultFlags).1.args.length)
    (hlen : ∀ layer ∈ setupLayers env (Exec.args env) (Exec.bridgeOps env),
      12 ≤ layer.length) :
    Follows env Exec [] (Exec.ops env) () := by
  apply follows_congr
  case hp =>
    unfold Exec
    apply follows_bind (parseFlags_follows env [] hargs hpos)
    apply follows_bind (setUpBridge_follows env _)
    exact initContainer_follows env _ _ (by simpa [Exec.bridgeOps] using hlen)
  case hops =>
    simp only [Exec.ops, Exec.bridgeOps, List.nil_append, List.append_assoc,
      List.singleton_append]
  case ha => rfl

/-! ## Control groups and orchestrator: order and failures -/

theorem initContainer_eq_teardown (env : Env) (args : runArgs) (h t1 t2 : List Op)
    (containerID imageShaHex : String)
    (hsetup : initContainer.setup args env h = Result.done (containerID, imageShaHex) t1)
    (hrun : prepareAndExecuteContainer args.mem args.swap args.pids args.cpus args.read_bps
      args.read_iops args.write_bps args.write_iops containerID imageShaHex args.commands
      env t1 = Result.done () t2) :
    initContainer args env h = initContainer.teardown containerID env t2 := by
  simp only [initContainer, bind_run, hsetup, hrun]

theorem stops_of_remove_error (env : Env) (h : List Op) (containerID : String) (r : Op)
    (e : String) (hr : r ∈ RemoveCGroups.ops containerID) (he : env.respond h r = some e) :
    env.stops h r = true := by
  simp only [RemoveCGroups.ops, List.mem_map] at hr
  obtain ⟨dir, _, rfl⟩ := hr
  simp [Env.stops, Op.handling, he]

theorem stops_of_stage_error (env : Env) (h : List Op) (args : runArgs)
    (containerID imageShaHex : String) (r : Op) (e : String)
    (hr : r ∈ stageOps args containerID imageShaHex) (he : env.respond h r = some e) :
    env.stops h r = true := by
  simp only [stageOps, List.mem_cons, List.mem_singleton, List.not_mem_nil, or_false] at hr
  rcases hr with rfl | rfl | rfl <;>
    (simp only [Env.stops, Op.handling]; rw [he]; rfl)

/-- C8: started after any operations `h`, in any world, `CreateCGroups` performs
the operations of `CreateCGroups.ops` in order, up to the first that ends the
run: when none of them does, it returns after all of them; when one does, the
process is terminated with that operation as its last.  These operations are
the creation of the five directories
`/sys/fs/cgroup/{memory,pids,cpu,blkio,devices}/fdocker/<id>` (only when
`createCGroupDirs` is true) and, directory by directory, the write of `1` to
`notify_on_release` and of the decimal process ID to `cgroup.procs`.  In the
same way `RemoveCGroups` performs the removals of the same five directories. -/
theorem CreateCGroups_RemoveCGroups_dirs (env : Env) (h : List Op) (containerID : String)
    (createCGroupDirs : Bool) :
    (env.passes h (CreateCGroups.ops env containerID createCGroupDirs) = true →
      CreateCGroups containerID createCGroupDirs env h =
        Result.done () (h ++ CreateCGroups.ops env containerID createCGroupDirs)) ∧
    (∀ pre op post, CreateCGroups.ops env containerID createCGroupDirs = pre ++ op :: post →
      env.passes h pre = true → env.stops (h ++ pre) op = true →
      (CreateCGroups containerID createCGroupDirs env h).isExit = true ∧
      (CreateCGroups containerID createCGroupDirs env h).trace = h ++ pre ++ [op]) ∧
    (env.passes h (RemoveCGroups.ops containerID) = true →
      RemoveCGroups containerID env h = Result.done () (h ++ RemoveCGroups.ops containerID)) ∧
    (∀ pre op post, RemoveCGroups.ops containerID = pre ++ op :: post →
      env.passes h pre = true → env.stops (h ++ pre) op = true →
      (RemoveCGroups containerID env h).isExit = true ∧
      (RemoveCGroups containerID env h).trace = h ++ pre ++ [op]) ∧
    CreateCGroups.ops env containerID createCGroupDirs =
      (if createCGroupDirs then
        [Op.EnsureDirs ["/sys/fs/cgroup/memory/fdocker/" ++ containerID,
          "/sys/fs/cgroup/pids/fdocker/" ++ containerID,
          "/sys/fs/cgroup/cpu/fdocker/" ++ containerID,
          "/sys/fs/cgroup/blkio/fdocker/" ++ containerID,
          "/sys/fs/cgroup/devices/fdocker/" ++ containerID]]
       else []) ++
      [Op.WriteFile ("/sys/fs/cgroup/memory/fdocker/" ++ containerID ++ "/notify_on_release")
         "1" 0o700,
       Op.WriteFile ("/sys/fs/cgroup/memory/fdocker/" ++ containerID ++ "/cgroup.procs")
         (Itoa env.pid) 0o700,
       Op.WriteFile ("/sys/fs/cgroup/pids/fdocker/" ++ containerID ++ "/notify_on_release")
         "1" 0o700,
       Op.WriteFile ("/sys/fs/cgroup/pids/fdocker/" ++ containerID ++ "/cgroup.procs")
         (Itoa env.pid) 0o700,
       Op.WriteFile ("/sys/fs/cgroup/cpu/fdocker/" ++ containerID ++ "/notify_on_release")
         "1" 0o700,
       Op.WriteFile ("/sys/fs/cgroup/cpu/fdocker/" ++ containerID ++ "/cgroup.procs")
         (Itoa env.pid) 0o700,
       Op.WriteFile ("/sys/fs/cgroup/blkio/fdocker/" ++ containerID ++ "/notify_on_release")
         "1" 0o700,
       Op.WriteFile ("/sys/fs/cgroup/blkio/fdocker/" ++ containerID ++ "/cgroup.procs")
         (Itoa env.pid) 0o700,
       Op.WriteFile ("/sys/fs/cgroup/devices/fdocker/" ++ containerID ++ "/notify_on_release")
         "1" 0o700,
       Op.WriteFile ("/sys/fs/cgroup/devices/fdocker/" ++ containerID ++ "/cgroup.procs")
         (Itoa env.pid) 0o700] ∧
    RemoveCGroups.ops containerID =
      [Op.Remove ("/sys/fs/cgroup/memory/fdocker/" ++ containerID),
       Op.Remove ("/sys/fs/cgroup/pids/fdocker/" ++ containerID),
       Op.Remove ("/sys/fs/cgroup/cpu/fdocker/" ++ containerID),
       Op.Remove ("/sys/fs/cgroup/blkio/fdocker/" ++ containerID),
       Op.Remove ("/sys/fs/cgroup/devices/fdocker/" ++ containerID)] :=
  ⟨(CreateCGroups_follows env containerID createCGroupDirs h).1,
   (CreateCGroups_follows env containerID createCGroupDirs h).2,
   (RemoveCGroups_follows env containerID h).1,
   (RemoveCGroups_follows env containerID h).2, rfl, rfl⟩

/-- C9 (as amended): in the teardown (reached after the three stages
succeeded), an error from unmounting the network namespace handle, an error
from unmounting the container filesystem and an error from removing a
control-group directory each terminate the run with a failure, at that
operation.  The error of `os.RemoveAll` is dropped: once the control groups
are removed the run performs the removal of the directory tree and completes
normally, whatever that removal returns. -/
theorem initContainer_teardown_errors (env : Env) (args : runArgs) (h t1 t2 : List Op)
    (containerID imageShaHex : String)
    (hsetup : initContainer.setup args env h = Result.done (containerID, imageShaHex) t1)
    (hrun : prepareAndExecuteContainer args.mem args.swap args.pids args.cpus args.read_bps
      args.read_iops args.write_bps args.write_iops containerID imageShaHex args.commands
      env t1 = Result.done () t2) :
    (∀ e, env.respond (t2 ++ [Op.Log "Container done.\n"])
        (Op.UnmountNetworkNamespace containerID) = some e →
      (initContainer args env h).isExit = true ∧
      (initContainer args env h).trace =
        t2 ++ [Op.Log "Container done.\n", Op.UnmountNetworkNamespace containerID]) ∧
    (env.respond (t2 ++ [Op.Log "Container done.\n"])
        (Op.UnmountNetworkNamespace containerID) = none →
      (∀ e, env.respond
          (t2 ++ [Op.Log "Container done.\n", Op.UnmountNetworkNamespace containerID])
          (Op.Unmount (env.ContainersPath ++ "/" ++ containerID ++ "/fs/mnt") 0) = some e →
        (initContainer args env h).isExit = true ∧
        (initContainer args env h).trace =
          t2 ++ [Op.Log "Container done.\n", Op.UnmountNetworkNamespace containerID,
            Op.Unmount (env.ContainersPath ++ "/" ++ containerID ++ "/fs/mnt") 0]) ∧
      (env.respond
          (t2 ++ [Op.Log "Container done.\n", Op.UnmountNetworkNamespace containerID])
          (Op.Unmount (env.ContainersPath ++ "/" ++ containerID ++ "/fs/mnt") 0) = none →
        (∀ pre r post e, RemoveCGroups.ops containerID = pre ++ r :: post →
          env.passes
            (t2 ++ [Op.Log "Container done.\n", Op.UnmountNetworkNamespace containerID,
              Op.Unmount (env.ContainersPath ++ "/" ++ containerID ++ "/fs/mnt") 0])
            pre = true →
          env.respond
            (t2 ++ [Op.Log "Container done.\n", Op.UnmountNetworkNamespace containerID,
              Op.Unmount (env.ContainersPath ++ "/" ++ containerID ++ "/fs/mnt") 0] ++ pre)
            r = some e →
          (initContainer args env h).isExit = true ∧
          (initContainer args env h).trace =
            t2 ++ [Op.Log "Container done.\n", Op.UnmountNetworkNamespace containerID,
              Op.Unmount (env.ContainersPath ++ "/" ++ containerID ++ "/fs/mnt") 0] ++
              pre ++ [r]) ∧
        (env.passes
            (t2 ++ [Op.Log "Container done.\n", Op.UnmountNetworkNamespace containerID,
              Op.Unmount (env.ContainersPath ++ "/" ++ containerID ++ "/fs/mnt") 0])
            (RemoveCGroups.ops containerID) = true →
          initContainer args env h =
            Result.done ()
              (t2 ++ [Op.Log "Container done.\n", Op.UnmountNetworkNamespace containerID,
                Op.Unmount (env.ContainersPath ++ "/" ++ containerID ++ "/fs/mnt") 0] ++
                RemoveCGroups.ops containerID ++
                [Op.RemoveAll (env.ContainersPath ++ "/" ++ containerID)])))) := by
  rw [initContainer_eq_teardown env args h t1 t2 containerID imageShaHex hsetup hrun]
  have hf := teardown_follows env containerID t2
  refine ⟨fun e he => ?_, fun hns => ⟨fun e he => ?_, fun hfs => ⟨fun pre r post e hsplit hpre he => ?_,
    fun hall => ?_⟩⟩⟩
  · have := hf.2 [Op.Log "Container done.\n"] (Op.UnmountNetworkNamespace containerID)
      (Op.Unmount (env.ContainersPath ++ "/" ++ containerID ++ "/fs/mnt") 0 ::
        (RemoveCGroups.ops containerID ++
          [Op.RemoveAll (env.ContainersPath ++ "/" ++ containerID)]))
      (by simp [teardownOps]) (by simp [Env.passes, Env.stops, Op.handling])
      (by simp [Env.stops, Op.handling, he])
    simpa using this
  · have := hf.2 [Op.Log "Container done.\n", Op.UnmountNetworkNamespace containerID]
      (Op.Unmount (env.ContainersPath ++ "/" ++ containerID ++ "/fs/mnt") 0)
      (RemoveCGroups.ops containerID ++
          [Op.RemoveAll (env.ContainersPath ++ "/" ++ containerID)])
      (by simp [teardownOps]) (by simp [Env.passes, Env.stops, Op.handling, hns])
      (by simp [Env.stops, Op.handling, he])
    simpa using this
  · have hr : r ∈ RemoveCGroups.ops containerID := by rw [hsplit]; simp
    have := hf.2 ([Op.Log "Container done.\n", Op.UnmountNetworkNamespace containerID,
        Op.Unmount (env.ContainersPath ++ "/" ++ containerID ++ "/fs/mnt") 0] ++ pre) r
      (post ++ [Op.RemoveAll (env.ContainersPath ++ "/" ++ containerID)])
      (by simp [teardownOps, hsplit])
      (by
        rw [Env.passes_append]
        simp only [Bool.and_eq_true]
        exact ⟨by simp [Env.passes, Env.stops, Op.handling, hns, hfs], hpre⟩)
      (stops_of_remove_error env _ containerID r e hr (by simpa using he))
    simpa using this
  · have := hf.1 (by
      simp only [teardownOps]
      rw [Env.passes_append, Env.passes_append]
      simp only [Bool.and_eq_true]
      exact ⟨⟨by simp [Env.passes, Env.stops, Op.handling, hns, hfs], hall⟩,
        by simp [Env.passes, Env.stops, Op.handling]⟩)
    simpa [teardownOps] using this

/-- C10: a run of `Exec` performs the operations of `Exec.ops`, once each and
in this order, up to the first that ends the run: ensure the bridge, generate
the container ID, resolve the image, create the container directories, mount
the overlay, attach the host veth, run the stages `setup-netns`, `setup-veth`
and `child-mode`, then unmount the network namespace, unmount the filesystem,
remove the control groups, remove the directories.  When none of these
operations ends the run (in particular when each of them succeeds), `Exec`
returns after all of them.  When one does, the process is terminated with that
operation as its last one; in particular when a stage fails, no later stage
and no teardown operation is performed. -/
theorem Exec_order (env : Env) (hargs : 2 ≤ env.osArgs.length)
    (hpos : 2 ≤ (env.flagParse (env.osArgs.drop 2) defaultFlags).1.args.length)
    (hlen : ∀ layer ∈ setupLayers env (Exec.args env) (Exec.bridgeOps env),
      12 ≤ layer.length) :
    (env.passes [] (Exec.ops env) = true → Exec env [] = Result.done () (Exec.ops env)) ∧
    (∀ pre op post, Exec.ops env = pre ++ op :: post → env.passes [] pre = true →
      env.stops pre op = true →
      (Exec env []).isExit = true ∧ (Exec env []).trace = pre ++ [op]) ∧
    (∀ pre r post e,
      stageOps (Exec.args env) (containerIDAt env (Exec.bridgeOps env))
        (setupImage env (Exec.args env) (Exec.bridgeOps env)) = pre ++ r :: post →
      env.passes []
        (Exec.bridgeOps env ++ setupOps env (Exec.args env) (Exec.bridgeOps env) ++ pre) = true →
      env.respond
        (Exec.bridgeOps env ++ setupOps env (Exec.args env) (Exec.bridgeOps env) ++ pre) r =
          some e →
      (Exec env []).isExit = true ∧
      (Exec env []).trace =
        Exec.bridgeOps env ++ setupOps env (Exec.args env) (Exec.bridgeOps env) ++ pre ++ [r]) := by
  have hf := Exec_follows env hargs hpos hlen
  refine ⟨hf.1, fun pre op post hsplit hpre hstop => ?_, fun pre r post e hsplit hpre he => ?_⟩
  · simpa using hf.2 pre op post hsplit hpre (by simpa using hstop)
  · have hr : r ∈ stageOps (Exec.args env) (containerIDAt env (Exec.bridgeOps env))
        (setupImage env (Exec.args env) (Exec.bridgeOps env)) := by rw [hsplit]; simp
    have := hf.2
      (Exec.bridgeOps env ++ setupOps env (Exec.args env) (Exec.bridgeOps env) ++ pre) r
      (post ++ teardownOps env (containerIDAt env (Exec.bridgeOps env)))
      (by simp [Exec.ops, hsplit]) hpre
      (stops_of_stage_error env _ _ _ _ r e hr (by simpa using he))
    simpa using this

set_option maxRecDepth 100000 in
/-- C8, witness: the container `0a1a2a3a4a5a` on `hostEnv`, process 4242, where
nothing fails; the removal on a host where removing the `cpu` control group
fails: two removals, then the failed one, and the process is terminated; and
the creation on a host where every write fails: the process is terminated at
the first write. -/
theorem CreateCGroups_RemoveCGroups_dirs_witness :
    CreateCGroups "0a1a2a3a4a5a" true hostEnv [] = Result.done ()
      ([] ++ [Op.EnsureDirs ["/sys/fs/cgroup/memory/fdocker/0a1a2a3a4a5a",
          "/sys/fs/cgroup/pids/fdocker/0a1a2a3a4a5a",
          "/sys/fs/cgroup/cpu/fdocker/0a1a2a3a4a5a",
          "/sys/fs/cgroup/blkio/fdocker/0a1a2a3a4a5a",
          "/sys/fs/cgroup/devices/fdocker/0a1a2a3a4a5a"],
        Op.WriteFile "/sys/fs/cgroup/memory/fdocker/0a1a2a3a4a5a/notify_on_release" "1" 0o700,
        Op.WriteFile "/sys/fs/cgroup/memory/fdocker/0a1a2a3a4a5a/cgroup.procs" "4242" 0o700,
        Op.WriteFile "/sys/fs/cgroup/pids/fdocker/0a1a2a3a4a5a/notify_on_release" "1" 0o700,
        Op.WriteFile "/sys/fs/cgroup/pids/fdocker/0a1a2a3a4a5a/cgroup.procs" "4242" 0o700,
        Op.WriteFile "/sys/fs/cgroup/cpu/fdocker/0a1a2a3a4a5a/notify_on_release" "1" 0o700,
        Op.WriteFile "/sys/fs/cgroup/cpu/fdocker/0a1a2a3a4a5a/cgroup.procs" "4242" 0o700,
        Op.WriteFile "/sys/fs/cgroup/blkio/fdocker/0a1a2a3a4a5a/notify_on_release" "1" 0o700,
        Op.WriteFile "/sys/fs/cgroup/blkio/fdocker/0a1a2a3a4a5a/cgroup.procs" "4242" 0o700,
        Op.WriteFile "/sys/fs/cgroup/devices/fdocker/0a1a2a3a4a5a/notify_on_release" "1" 0o700,
        Op.WriteFile "/sys/fs/cgroup/devices/fdocker/0a1a2a3a4a5a/cgroup.procs" "4242" 0o700]) ∧
    RemoveCGroups "0a1a2a3a4a5a" hostEnv [] = Result.done ()
      ([] ++ [Op.Remove "/sys/fs/cgroup/memory/fdocker/0a1a2a3a4a5a",
        Op.Remove "/sys/fs/cgroup/pids/fdocker/0a1a2a3a4a5a",
        Op.Remove "/sys/fs/cgroup/cpu/fdocker/0a1a2a3a4a5a",
        Op.Remove "/sys/fs/cgroup/blkio/fdocker/0a1a2a3a4a5a",
        Op.Remove "/sys/fs/cgroup/devices/fdocker/0a1a2a3a4a5a"]) ∧
    ((RemoveCGroups "0a1a2a3a4a5a" removeFailsEnv []).isExit = true ∧
      (RemoveCGroups "0a1a2a3a4a5a" removeFailsEnv []).trace =
        [] ++ [Op.Remove "/sys/fs/cgroup/memory/fdocker/0a1a2a3a4a5a",
          Op.Remove "/sys/fs/cgroup/pids/fdocker/0a1a2a3a4a5a"] ++
          [Op.Remove "/sys/fs/cgroup/cpu/fdocker/0a1a2a3a4a5a"]) ∧
    ((CreateCGroups "0a1a2a3a4a5a" false brokenEnv []).isExit = true ∧
      (CreateCGroups "0a1a2a3a4a5a" false brokenEnv []).trace =
        [] ++ [] ++
          [Op.WriteFile "/sys/fs/cgroup/memory/fdocker/0a1a2a3a4a5a/notify_on_release" "1"
            0o700]) :=
  ⟨(CreateCGroups_RemoveCGroups_dirs hostEnv [] "0a1a2a3a4a5a" true).1 (by rfl),
   (CreateCGroups_RemoveCGroups_dirs hostEnv [] "0a1a2a3a4a5a" true).2.2.1 (by rfl),
   (CreateCGroups_RemoveCGroups_dirs removeFailsEnv [] "0a1a2a3a4a5a" true).2.2.2.1
     [Op.Remove "/sys/fs/cgroup/memory/fdocker/0a1a2a3a4a5a",
       Op.Remove "/sys/fs/cgroup/pids/fdocker/0a1a2a3a4a5a"]
     (Op.Remove "/sys/fs/cgroup/cpu/fdocker/0a1a2a3a4a5a")
     [Op.Remove "/sys/fs/cgroup/blkio/fdocker/0a1a2a3a4a5a",
       Op.Remove "/sys/fs/cgroup/devices/fdocker/0a1a2a3a4a5a"]
     (by rfl) (by rfl) (by rfl),
   (CreateCGroups_RemoveCGroups_dirs brokenEnv [] "0a1a2a3a4a5a" false).2.1 []
     (Op.WriteFile "/sys/fs/cgroup/memory/fdocker/0a1a2a3a4a5a/notify_on_release" "1" 0o700)
     (List.tail (CreateCGroups.ops brokenEnv "0a1a2a3a4a5a" false))
     (by rfl) (by rfl) (by rfl)⟩

set_option maxRecDepth 100000 in
/-- C9, witness: the run `run --mem 100 --pids 50 alpine echo hi`.  In a world
where the unmount of the network namespace handle returns an error, the run is
terminated at that operation; so it is at the unmount of the filesystem in a
world where that one returns an error, and at the removal of the `cpu` control
group in a world where that one returns an error.  In a world where
`os.RemoveAll` returns an error and everything else succeeds, the teardown is
performed to its end and the run completes normally. -/
theorem initContainer_teardown_errors_witness :
    ((initContainer (Exec.args netnsFailsEnv) netnsFailsEnv [Op.IsFDockerBridgeUp]).isExit =
        true ∧
      (initContainer (Exec.args netnsFailsEnv) netnsFailsEnv [Op.IsFDockerBridgeUp]).trace =
        [Op.IsFDockerBridgeUp] ++
        setupOps netnsFailsEnv (Exec.args netnsFailsEnv) [Op.IsFDockerBridgeUp] ++
        stageOps (Exec.args netnsFailsEnv) "0a1a2a3a4a5a" "a24bb4013296" ++
        [Op.Log "Container done.\n", Op.UnmountNetworkNamespace "0a1a2a3a4a5a"]) ∧
    ((initContainer (Exec.args unmountFailsEnv) unmountFailsEnv [Op.IsFDockerBridgeUp]).isExit =
        true ∧
      (initContainer (Exec.args unmountFailsEnv) unmountFailsEnv [Op.IsFDockerBridgeUp]).trace =
        [Op.IsFDockerBridgeUp] ++
        setupOps unmountFailsEnv (Exec.args unmountFailsEnv) [Op.IsFDockerBridgeUp] ++
        stageOps (Exec.args unmountFailsEnv) "0a1a2a3a4a5a" "a24bb4013296" ++
        [Op.Log "Container done.\n", Op.UnmountNetworkNamespace "0a1a2a3a4a5a",
          Op.Unmount ("/var/run/fdocker/containers" ++ "/" ++ "0a1a2a3a4a5a" ++ "/fs/mnt") 0]) ∧
    ((initContainer (Exec.args removeFailsEnv) removeFailsEnv [Op.IsFDockerBridgeUp]).isExit =
        true ∧
      (initContainer (Exec.args removeFailsEnv) removeFailsEnv [Op.IsFDockerBridgeUp]).trace =
        [Op.IsFDockerBridgeUp] ++
        setupOps removeFailsEnv (Exec.args removeFailsEnv) [Op.IsFDockerBridgeUp] ++
        stageOps (Exec.args removeFailsEnv) "0a1a2a3a4a5a" "a24bb4013296" ++
        [Op.Log "Container done.\n", Op.UnmountNetworkNamespace "0a1a2a3a4a5a",
          Op.Unmount ("/var/run/fdocker/containers" ++ "/" ++ "0a1a2a3a4a5a" ++ "/fs/mnt") 0] ++
        [Op.Remove "/sys/fs/cgroup/memory/fdocker/0a1a2a3a4a5a",
          Op.Remove "/sys/fs/cgroup/pids/fdocker/0a1a2a3a4a5a"] ++
        [Op.Remove "/sys/fs/cgroup/cpu/fdocker/0a1a2a3a4a5a"]) ∧
    initContainer (Exec.args removeAllFailsEnv) removeAllFailsEnv [Op.IsFDockerBridgeUp] =
      Result.done ()
        ([Op.IsFDockerBridgeUp] ++
          setupOps removeAllFailsEnv (Exec.args removeAllFailsEnv) [Op.IsFDockerBridgeUp] ++
          stageOps (Exec.args removeAllFailsEnv) "0a1a2a3a4a5a" "a24bb4013296" ++
          [Op.Log "Container done.\n", Op.UnmountNetworkNamespace "0a1a2a3a4a5a",
            Op.Unmount ("/var/run/fdocker/containers" ++ "/" ++ "0a1a2a3a4a5a" ++ "/fs/mnt") 0] ++
          RemoveCGroups.ops "0a1a2a3a4a5a" ++
          [Op.RemoveAll ("/var/run/fdocker/containers" ++ "/" ++ "0a1a2a3a4a5a")]) :=
  ⟨(initContainer_teardown_errors netnsFailsEnv (Exec.args netnsFailsEnv)
      [Op.IsFDockerBridgeUp]
      ([Op.IsFDockerBridgeUp] ++
        setupOps netnsFailsEnv (Exec.args netnsFailsEnv) [Op.IsFDockerBridgeUp])
      ([Op.IsFDockerBridgeUp] ++
        setupOps netnsFailsEnv (Exec.args netnsFailsEnv) [Op.IsFDockerBridgeUp] ++
        stageOps (Exec.args netnsFailsEnv) "0a1a2a3a4a5a" "a24bb4013296")
      "0a1a2a3a4a5a" "a24bb4013296" (by rfl) (by rfl)).1 "invalid argument" (by rfl),
   ((initContainer_teardown_errors unmountFailsEnv (Exec.args unmountFailsEnv)
      [Op.IsFDockerBridgeUp]
      ([Op.IsFDockerBridgeUp] ++
        setupOps unmountFailsEnv (Exec.args unmountFailsEnv) [Op.IsFDockerBridgeUp])
      ([Op.IsFDockerBridgeUp] ++
        setupOps unmountFailsEnv (Exec.args unmountFailsEnv) [Op.IsFDockerBridgeUp] ++
        stageOps (Exec.args unmountFailsEnv) "0a1a2a3a4a5a" "a24bb4013296")
      "0a1a2a3a4a5a" "a24bb4013296" (by rfl) (by rfl)).2 (by rfl)).1
      "device or resource busy" (by rfl),
   ((((initContainer_teardown_errors removeFailsEnv (Exec.args removeFailsEnv)
      [Op.IsFDockerBridgeUp]
      ([Op.IsFDockerBridgeUp] ++
        setupOps removeFailsEnv (Exec.args removeFailsEnv) [Op.IsFDockerBridgeUp])
      ([Op.IsFDockerBridgeUp] ++
        setupOps removeFailsEnv (Exec.args removeFailsEnv) [Op.IsFDockerBridgeUp] ++
        stageOps (Exec.args removeFailsEnv) "0a1a2a3a4a5a" "a24bb4013296")
      "0a1a2a3a4a5a" "a24bb4013296" (by rfl) (by rfl)).2 (by rfl)).2 (by rfl)).1
      [Op.Remove "/sys/fs/cgroup/memory/fdocker/0a1a2a3a4a5a",
        Op.Remove "/sys/fs/cgroup/pids/fdocker/0a1a2a3a4a5a"]
      (Op.Remove "/sys/fs/cgroup/cpu/fdocker/0a1a2a3a4a5a")
      [Op.Remove "/sys/fs/cgroup/blkio/fdocker/0a1a2a3a4a5a",
        Op.Remove "/sys/fs/cgroup/devices/fdocker/0a1a2a3a4a5a"]
      "device or resource busy" (by rfl) (by rfl) (by rfl)),
   (((initContainer_teardown_errors removeAllFailsEnv (Exec.args removeAllFailsEnv)
      [Op.IsFDockerBridgeUp]
      ([Op.IsFDockerBridgeUp] ++
        setupOps removeAllFailsEnv (Exec.args removeAllFailsEnv) [Op.IsFDockerBridgeUp])
      ([Op.IsFDockerBridgeUp] ++
        setupOps removeAllFailsEnv (Exec.args removeAllFailsEnv) [Op.IsFDockerBridgeUp] ++
        stageOps (Exec.args removeAllFailsEnv) "0a1a2a3a4a5a" "a24bb4013296")
      "0a1a2a3a4a5a" "a24bb4013296" (by rfl) (by rfl)).2 (by rfl)).2 (by rfl)).2 (by rfl)⟩

set_option maxRecDepth 100000 in
/-- C10, witness: the run `run --mem 100 --pids 50 alpine echo hi` on a host
where everything succeeds, operation by operation; and the same run on a host
where the stage `setup-veth` fails. -/
theorem Exec_order_witness :
    Exec hostEnv [] = Result.done ()
      [Op.IsFDockerBridgeUp,
       Op.RandRead 6,
       Op.Log "New container ID: 0a1a2a3a4a5a\n",
       Op.DownloadImageIfRequired "alpine",
       Op.Log "Image to overlay mount: a24bb4013296\n",
       Op.EnsureDirs ["/var/run/fdocker/containers/0a1a2a3a4a5a/fs",
         "/var/run/fdocker/containers/0a1a2a3a4a5a/fs/mnt",
         "/var/run/fdocker/containers/0a1a2a3a4a5a/fs/upperdir",
         "/var/run/fdocker/containers/0a1a2a3a4a5a/fs/workdir"],
       Op.ParseManifest "/var/lib/fdocker/images/a24bb4013296/manifest.json",
       Op.Mount "/dev/sda5" "/var/run/fdocker/containers/0a1a2a3a4a5a/fs/mnt" "overlay" 0
         "lowerdir=/var/lib/fdocker/images/a24bb4013296/cccccccccccc/fs:/var/lib/fdocker/images/a24bb4013296/aaaaaaaaaaaa/fs:/var/lib/fdocker/images/a24bb4013296/111111111111/fs,upperdir=/var/run/fdocker/containers/0a1a2a3a4a5a/fs/upperdir,workdir=/var/run/fdocker/containers/0a1a2a3a4a5a/fs/workdir",
       Op.SetupVirtualEthOnHost "0a1a2a3a4a5a",
       Op.Run "/proc/self/exe" ["/proc/self/exe", "setup-netns", "0a1a2a3a4a5a"] [] false,
       Op.Run "/proc/self/exe" ["/proc/self/exe", "setup-veth", "0a1a2a3a4a5a"] [] false,
       Op.Run "/proc/self/exe"
         ["/proc/self/exe", "child-mode", "--mem=100", "--pids=50", "--img=a24bb4013296",
           "0a1a2a3a4a5a", "echo", "hi"]
         [CloneFlag.CLONE_NEWPID, CloneFlag.CLONE_NEWNS, CloneFlag.CLONE_NEWUTS,
           CloneFlag.CLONE_NEWIPC] true,
       Op.Log "Container done.\n",
       Op.UnmountNetworkNamespace "0a1a2a3a4a5a",
       Op.Unmount "/var/run/fdocker/containers/0a1a2a3a4a5a/fs/mnt" 0,
       Op.Remove "/sys/fs/cgroup/memory/fdocker/0a1a2a3a4a5a",
       Op.Remove "/sys/fs/cgroup/pids/fdocker/0a1a2a3a4a5a",
       Op.Remove "/sys/fs/cgroup/cpu/fdocker/0a1a2a3a4a5a",
       Op.Remove "/sys/fs/cgroup/blkio/fdocker/0a1a2a3a4a5a",
       Op.Remove "/sys/fs/cgroup/devices/fdocker/0a1a2a3a4a5a",
       Op.RemoveAll "/var/run/fdocker/containers/0a1a2a3a4a5a"] ∧
    ((Exec vethFailsEnv []).isExit = true ∧
      (Exec vethFailsEnv []).trace =
      [Op.IsFDockerBridgeUp,
       Op.RandRead 6,
       Op.Log "New container ID: 0a1a2a3a4a5a\n",
       Op.DownloadImageIfRequired "alpine",
       Op.Log "Image to overlay mount: a24bb4013296\n",
       Op.EnsureDirs ["/var/run/fdocker/containers/0a1a2a3a4a5a/fs",
         "/var/run/fdocker/containers/0a1a2a3a4a5a/fs/mnt",
         "/var/run/fdocker/containers/0a1a2a3a4a5a/fs/upperdir",
         "/var/run/fdocker/containers/0a1a2a3a4a5a/fs/workdir"],
       Op.ParseManifest "/var/lib/fdocker/images/a24bb4013296/manifest.json",
       Op.Mount "/dev/sda5" "/var/run/fdocker/containers/0a1a2a3a4a5a/fs/mnt" "overlay" 0
         "lowerdir=/var/lib/fdocker/images/a24bb4013296/cccccccccccc/fs:/var/lib/fdocker/images/a24bb4013296/aaaaaaaaaaaa/fs:/var/lib/fdocker/images/a24bb4013296/111111111111/fs,upperdir=/var/run/fdocker/containers/0a1a2a3a4a5a/fs/upperdir,workdir=/var/run/fdocker/containers/0a1a2a3a4a5a/fs/workdir",
       Op.SetupVirtualEthOnHost "0a1a2a3a4a5a",
       Op.Run "/proc/self/exe" ["/proc/self/exe", "setup-netns", "0a1a2a3a4a5a"] [] false,
       Op.Run "/proc/self/exe" ["/proc/self/exe", "setup-veth", "0a1a2a3a4a5a"] [] false]) :=
  ⟨(Exec_order hostEnv (by decide) (by decide) (by decide)).1 (by rfl),
   (Exec_order vethFailsEnv (by decide) (by decide) (by decide)).2.2
    [Op.Run "/proc/self/exe" ["/proc/self/exe", "setup-netns", "0a1a2a3a4a5a"] [] false]
    (Op.Run "/proc/self/exe" ["/proc/self/exe", "setup-veth", "0a1a2a3a4a5a"] [] false)
    [Op.Run "/proc/self/exe"
      ["/proc/self/exe", "child-mode", "--mem=100", "--pids=50", "--img=a24bb4013296",
        "0a1a2a3a4a5a", "echo", "hi"]
      [CloneFlag.CLONE_NEWPID, CloneFlag.CLONE_NEWNS, CloneFlag.CLONE_NEWUTS,
        CloneFlag.CLONE_NEWIPC] true]
    "exit status 1" (by rfl) (by rfl) (by rfl)⟩

end FDocker
